import Mathlib

/-!
Verification development for the `linkedinflow` LinkedIn-automation backend
(Flask app `app.py`, SQLAlchemy models `database.py`, service wrappers
`services/openai_client.py`, `services/agiopen_client.py`,
`services/image_generator.py`).

The Python code is shallowly embedded: JSON values are the inductive type
`PyJson`, each HTTP handler becomes a pure function from its request data and
the results of its external collaborators (language model, image model,
screen-automation agent, filesystem) to an HTTP response plus the new store
state, and the single cancellation flag shared between requests is modelled by
an explicit interleaving machine (`CPState`, `cpStep`).
-/

/-- A Python/JSON value as produced by `request.json`, `json.loads` and
`jsonify`. `null` doubles as Python `None`. Numbers are modelled as integers
(no float appears in any relevant code path). -/
inductive PyJson where
  | null
  | bool (b : Bool)
  | num (n : Int)
  | str (s : String)
  | arr (xs : List PyJson)
  | obj (kvs : List (String × PyJson))
deriving Repr

/-- Association-list lookup, modelling Python `dict.get(k)` (first match;
Python dict keys are unique so this agrees with dict semantics). -/
def dictGet (kvs : List (String × PyJson)) (k : String) : Option PyJson :=
  match kvs with
  | [] => none
  | (k', v) :: rest => if k' = k then some v else dictGet rest k

/-- Python `dict.get(k, d)`. -/
def dictGetD (kvs : List (String × PyJson)) (k : String) (d : PyJson) : PyJson :=
  (dictGet kvs k).getD d

/-- Python `d[k] = v`: replace the value of an existing key, else append. -/
def dictSet (kvs : List (String × PyJson)) (k : String) (v : PyJson) :
    List (String × PyJson) :=
  match kvs with
  | [] => [(k, v)]
  | (k', v') :: rest =>
    if k' = k then (k', v) :: rest else (k', v') :: dictSet rest k v

/-- Python truthiness of a JSON value (`if x:`). -/
def pyTruthy : PyJson → Bool
  | .null => false
  | .bool b => b
  | .num n => n ≠ 0
  | .str s => !s.isEmpty
  | .arr xs => !xs.isEmpty
  | .obj kvs => !kvs.isEmpty

/-- Truthiness of a `dict.get` result (`None` when the key is absent). -/
def pyTruthyOpt : Option PyJson → Bool
  | none => false
  | some v => pyTruthy v

/-- Python `v == "s"` for a JSON value: true only for the equal string
(Python equality between a string and a non-string is `False`). -/
def pyEqStr (v : PyJson) (s : String) : Bool :=
  match v with
  | .str t => t = s
  | _ => false

/-- Python type name of a value, used to build exception messages. -/
def pyTypeName : PyJson → String
  | .null => "NoneType"
  | .bool _ => "bool"
  | .num _ => "int"
  | .str _ => "str"
  | .arr _ => "list"
  | .obj _ => "dict"

/-- Whether the value is hashable in Python (so it may be used in a
`x in some_dict` membership test without raising `TypeError`). -/
def pyHashable : PyJson → Bool
  | .arr _ => false
  | .obj _ => false
  | _ => true

/-- An HTTP response as produced by `jsonify(...)`: a status code and a JSON
object body. Every JSON response in `app.py` is a JSON object. -/
structure JResp where
  status : Nat
  body : List (String × PyJson)
deriving Repr

/-- Outcome of running a request handler: either a response was produced, or
an exception escaped the handler uncaught (it was raised outside the
handler's `try` block). -/
inductive HOutcome where
  | response (r : JResp)
  | uncaught (e : String)
deriving Repr

/-! ## `services/openai_client.py` -/

/-- `\w` of Python `re`, restricted to the ASCII fragment exercised here:
letters, digits and underscore. -/
def isWordChar (c : Char) : Bool := c.isAlphanum || c == '_'

/-- Fuel-driven scanner for `re.findall(r"#\w+", line)`: left-to-right,
non-overlapping maximal matches of a `#` followed by at least one word
character. Each step consumes at least one character, so fuel equal to the
input length suffices. -/
def findallTagsAux : Nat → List Char → List String
  | 0, _ => []
  | _, [] => []
  | fuel + 1, c :: rest =>
    if c == '#' then
      let run := rest.takeWhile isWordChar
      if run.isEmpty then findallTagsAux fuel rest
      else String.mk ('#' :: run) :: findallTagsAux fuel (rest.drop run.length)
    else findallTagsAux fuel rest

/-- `re.findall(r"#\w+", line)`. -/
def findallTags (cs : List Char) : List String := findallTagsAux cs.length cs

/-- Python `str.split(sep)` for a one-character separator: splits at every
occurrence, keeping empty pieces (`"".split(c)` is `[""]`). -/
def splitOnChar (sep : Char) : List Char → List (List Char)
  | [] => [[]]
  | c :: rest =>
    let r := splitOnChar sep rest
    if c == sep then [] :: r
    else
      match r with
      | [] => [[c]]
      | h :: t => (c :: h) :: t

/-- Python `str.strip()` on the ASCII whitespace actually produced by the
model: drop leading and trailing whitespace characters. -/
def trimChars (cs : List Char) : List Char :=
  ((cs.dropWhile Char.isWhitespace).reverse.dropWhile Char.isWhitespace).reverse

/-- `str.strip()` lifted back to `String`. -/
def strTrim (s : String) : String := String.mk (trimChars s.data)

/-- `str.startswith(pre)`. -/
def strStartsWith (s pre : String) : Bool := pre.data.isPrefixOf s.data

/-- `str.endswith(suf)`. -/
def strEndsWith (s suf : String) : Bool := suf.data.reverse.isPrefixOf s.data.reverse

/-- `s[n:]`. -/
def strDrop (s : String) (n : Nat) : String := String.mk (s.data.drop n)

/-- `s[:-n]` (for `n ≤ len(s)`). -/
def strDropRight (s : String) (n : Nat) : String :=
  String.mk (s.data.take (s.data.length - n))

/-- `s[:n]`. -/
def strTake (s : String) (n : Nat) : String := String.mk (s.data.take n)

/-- The hashtag-harvesting loop of `generate_linkedin_post`
(`openai_client.py` lines 68-73): split on newlines, and for every line
containing `#` collect the `#\w+` matches, in order. -/
def extractHashtags (content : String) : List String :=
  (((splitOnChar '\n' content.data).map
    (fun line => if line.contains '#' then findallTags line else [])).flatten)

/-- The markdown-fence cleanup of `generate_linkedin_post`
(`openai_client.py` lines 46-55): strip, drop a leading ` ```json ` or
` ``` `, drop a trailing ` ``` `, strip again. -/
def cleanContent (raw : String) : String :=
  let content := strTrim raw
  let content :=
    if strStartsWith content "```json" then strDrop content 7
    else if strStartsWith content "```" then strDrop content 3
    else content
  let content := if strEndsWith content "```" then strDropRight content 3 else content
  strTrim content

/-- The fixed fallback hashtag list of `generate_linkedin_post`. -/
def defaultHashtags : List String :=
  ["ProfessionalDevelopment", "CareerAdvice", "Leadership"]

/-- `OpenAIClient.generate_linkedin_post` (`openai_client.py` lines 10-82).
`api` is the outcome of the hosted chat-completion call (`.error e` when the
SDK raised, `.ok raw` when it returned text `raw`); `json_loads` models
Python `json.loads`, returning `none` for a `json.JSONDecodeError`. The
returned association list is the Python dict the method returns. A parse
result that is valid JSON but not an object makes `result.get` raise
`AttributeError`, which the method's outer `except` turns into a failure
dict, exactly as in the source. -/
def generate_linkedin_post (api : Except String String)
    (json_loads : String → Option PyJson) : List (String × PyJson) :=
  match api with
  | .error e => [("success", .bool false), ("error", .str e)]
  | .ok raw =>
    let content := cleanContent raw
    match json_loads content with
    | some (.obj kvs) =>
      [("success", .bool true),
       ("post_content", dictGetD kvs "content" (.str "")),
       ("hashtags", dictGetD kvs "hashtags" (.arr [])),
       ("image_description", dictGetD kvs "image_description" (.str ""))]
    | some v =>
      [("success", .bool false),
       ("error", .str ("\x27" ++ pyTypeName v ++ "\x27 object has no attribute \x27get\x27"))]
    | none =>
      let hashtags := extractHashtags content
      [("success", .bool true),
       ("post_content", .str content),
       ("hashtags", .arr ((if hashtags.isEmpty then defaultHashtags
                           else hashtags.take 5).map PyJson.str)),
       ("image_description",
        .str "Professional LinkedIn post image, business setting, modern design")]

/-- `OpenAIClient.generate_linkedin_comment` (`openai_client.py` lines
84-111): returns the model text, or on any exception the fixed prefix with
the stringified exception appended. -/
def generate_linkedin_comment (api : Except String String) : String :=
  match api with
  | .ok t => t
  | .error e => "Thank you for your comment! " ++ e

/-- `OpenAIClient.generate_linkedin_message` (`openai_client.py` lines
113-155): returns the model text, or on any exception the fixed fallback
message. The template chosen from `trigger_context` only changes the prompt,
not the result shape, so it does not appear here. -/
def generate_linkedin_message (api : Except String String) : String :=
  match api with
  | .ok t => t
  | .error _ =>
    "Hi! Thanks for engaging with my post. I\x27d love to connect and continue the conversation!"

/-! ## `services/agiopen_client.py` -/

/-- `AGIOpenClient.get_post_comments` (`agiopen_client.py` lines 424-430):
an explicit placeholder, constant in its argument. -/
def get_post_comments_client (_post_url : Option PyJson) : List (String × PyJson) :=
  [("success", .bool false),
   ("comments", .arr []),
   ("error", .str "Comment extraction not yet implemented with OAGI SDK")]

/-- `AGIOpenClient.reply_to_comment` (`agiopen_client.py` lines 432-437):
an explicit placeholder, constant in its arguments. -/
def reply_to_comment_client (_post_url _comment_text _reply_text : Option PyJson) :
    List (String × PyJson) :=
  [("success", .bool false),
   ("error", .str "Use reply_to_comments_automated for batch replies")]

/-- `AGIOpenClient.message_user` (`agiopen_client.py` lines 439-444):
an explicit placeholder, constant in its arguments. -/
def message_user_client (_profile_url : Option PyJson) (_message : String) :
    List (String × PyJson) :=
  [("success", .bool false),
   ("error", .str "Messaging not yet implemented with OAGI SDK")]

/-- `AGIOpenClient.get_post_likers` (`agiopen_client.py` lines 446-452):
an explicit placeholder, constant in its argument. -/
def get_post_likers_client (_post_url : Option PyJson) : List (String × PyJson) :=
  [("success", .bool false),
   ("likers", .arr []),
   ("error", .str "Likers extraction not yet implemented with OAGI SDK")]

/-- `AGIOpenClient.read_apple_notes` (`agiopen_client.py` lines 318-327):
constant failure directing the user to the plain-text option. -/
def read_apple_notes (_note_title : Option PyJson) : List (String × PyJson) :=
  [("success", .bool false),
   ("content", .str ""),
   ("error", .str "Apple Notes reading via OAGI requires additional clipboard handling. Please use \x27Plain Text\x27 option for now.")]

/-- `AGIOpenClient.read_google_docs` (`agiopen_client.py` lines 329-345):
failure whether or not a URL is supplied (truthiness test on `doc_url`). -/
def read_google_docs (doc_url _doc_name : Option PyJson) : List (String × PyJson) :=
  if !pyTruthyOpt doc_url then
    [("success", .bool false),
     ("content", .str ""),
     ("error", .str "Please provide a Google Docs URL to read the document. Use \x27Plain Text\x27 option for manual input.")]
  else
    [("success", .bool false),
     ("content", .str ""),
     ("error", .str "Google Docs reading via OAGI is not yet implemented. Please use \x27Plain Text\x27 option.")]

/-- `AGIOpenClient.create_linkedin_post` / `_create_post_async`
(`agiopen_client.py` lines 58-101): the agent call either completes
(`.ok`) or raises (`.error e`, swallowed into a failure dict). -/
def create_linkedin_post_client (agentExec : Except String Unit) :
    List (String × PyJson) :=
  match agentExec with
  | .ok _ => [("success", .bool true), ("message", .str "Post draft created successfully")]
  | .error e => [("success", .bool false), ("error", .str e)]

/-- `AGIOpenClient.publish_post` / `_publish_post_async`
(`agiopen_client.py` lines 290-316). -/
def publish_post_client (agentExec : Except String Unit) : List (String × PyJson) :=
  match agentExec with
  | .ok _ =>
    [("success", .bool true),
     ("post_url", .str "Posted successfully"),
     ("post_id", .str "posted")]
  | .error e => [("success", .bool false), ("error", .str e)]

/-! ### The cancellation machine for `_create_and_publish_post_async`

`agiopen_client.py` shares one `threading.Event` (`_stop_flag`) and one
`self.current_task` slot between the request thread running
`_create_and_publish_post_async` (lines 103-284) and any request thread
running `stop_current_task` (lines 25-41). The interleaving of the two is
modelled by an explicit event machine: `.step` advances the async function
by one of its observable program points, `.stop` runs `stop_current_task`
atomically, `.taskDone` is the external agent completing the created task. -/

/-- The possible return values of `_create_and_publish_post_async`,
each standing for one concrete returned dict. -/
inductive CPOutcome where
  /-- lines 273-278: `{"success": True, "post_url": "Draft ready", ...}` -/
  | success
  /-- lines 251/270: `{"success": False, "error": "Operation stopped by user"}` -/
  | stopped
  /-- lines 111/258/266/280: `{"success": False, "error": "Operation cancelled"}` -/
  | cancelled
  /-- line 262: `{"success": False, "error": "Operation timed out"}` -/
  | timedOut
  /-- lines 281-284: `{"success": False, "error": str(e)}` -/
  | err (e : String)
deriving Repr, DecidableEq

/-- Status of the `asyncio` task created at line 216. -/
inductive TaskStatus where
  | notCreated
  | running
  | doneOk
  | cancelledT
deriving Repr, DecidableEq

/-- Program points of `_create_and_publish_post_async`, named after the next
line to execute: `atClear` = line 106 (`_stop_flag.clear()`), `atCheck1` =
line 110, `atCreate` = line 216 (`create_task` and slot assignment),
`atLoop` = the polling loop at lines 227-239, `atCheck2` = line 242,
`atAwait` = lines 254-256, `atRet` = the success return at line 273,
`atDone` = returned. -/
inductive OpPC where
  | atClear
  | atCheck1
  | atCreate
  | atLoop
  | atCheck2
  | atAwait
  | atRet
  | atDone
deriving Repr, DecidableEq

/-- Joint state of the stop flag, the `current_task` slot, the task object
and the async function. -/
structure CPState where
  flag : Bool
  slot : Bool
  task : TaskStatus
  pc : OpPC
  result : Option CPOutcome
deriving Repr, DecidableEq

/-- Interleaving events: one observable step of the async function, the
external completion of the agent task, or a `stop_current_task` call from
another request. -/
inductive CPEvent where
  | step
  | taskDone
  | stop
deriving Repr, DecidableEq

/-- `task.done()` in Python: true for a completed or cancelled task. -/
def TaskStatus.isDone : TaskStatus → Bool
  | .doneOk => true
  | .cancelledT => true
  | _ => false

/-- One observable step of `_create_and_publish_post_async`. -/
def cpOpStep (s : CPState) : CPState :=
  match s.pc with
  | .atClear => { s with flag := false, pc := .atCheck1 }
  | .atCheck1 =>
    if s.flag then { s with pc := .atDone, result := some .cancelled }
    else { s with pc := .atCreate }
  | .atCreate => { s with task := .running, slot := true, pc := .atLoop }
  | .atLoop =>
    if !s.slot then
      -- `self.current_task.done()` on a cleared slot raises AttributeError,
      -- reaching the except at lines 267-271: stop-flag set means the
      -- stopped-by-user dict, otherwise re-raise into the outer except.
      if s.flag then { s with pc := .atDone, result := some .stopped }
      else
        { s with
          pc := .atDone,
          result := some (.err "\x27NoneType\x27 object has no attribute \x27done\x27") }
    else if s.task.isDone || s.flag then { s with pc := .atCheck2 }
    else s
  | .atCheck2 =>
    if s.flag then
      -- lines 242-251 (or the except at 267-270 when the slot was already
      -- cleared): cancel a still-running task, clear the slot, return the
      -- stopped-by-user dict.
      { s with
        task := if s.slot && s.task == .running then .cancelledT else s.task,
        slot := false, pc := .atDone, result := some .stopped }
    else { s with pc := .atAwait }
  | .atAwait =>
    if !s.slot then
      if s.flag then { s with pc := .atDone, result := some .stopped }
      else
        { s with
          pc := .atDone,
          result := some (.err "\x27NoneType\x27 object has no attribute \x27done\x27") }
    else
      match s.task with
      | .doneOk => { s with pc := .atRet }
      | .cancelledT => { s with pc := .atDone, result := some .cancelled }
      | _ =>
        -- lines 259-262: loop left without the task being done.
        { s with task := .cancelledT, pc := .atDone, result := some .timedOut }
  | .atRet => { s with pc := .atDone, result := some .success }
  | .atDone => s

/-- `stop_current_task` (lines 25-41), run atomically: set the flag, cancel
the referenced task when it is not yet done, clear the slot. -/
def cpStop (s : CPState) : CPState :=
  { s with flag := true,
           task := if s.slot && s.task == .running then .cancelledT else s.task,
           slot := false }

/-- Apply one interleaving event. -/
def cpStep (s : CPState) (e : CPEvent) : CPState :=
  match e with
  | .step => cpOpStep s
  | .taskDone => if s.task == .running then { s with task := .doneOk } else s
  | .stop => cpStop s

/-- Initial state: the flag may hold any stale value from an earlier
request, no task exists yet, the function is about to run line 106. -/
def cpInit (flag0 : Bool) : CPState :=
  { flag := flag0, slot := false, task := .notCreated, pc := .atClear, result := none }

/-- Run `_create_and_publish_post_async` against an interleaving. -/
def runCP (flag0 : Bool) (es : List CPEvent) : CPState :=
  es.foldl cpStep (cpInit flag0)

/-! ## `database.py` and the store -/

/-- A row of `post_history` (`database.py` lines 11-21). Loosely typed
columns are `PyJson` (SQLite stores whatever value the handler passed);
`created_at` is the insertion timestamp (column default
`datetime.utcnow`, modelled as a natural number) and `engagement_count`
has column default `0`. -/
structure PostRec where
  post_id : PyJson
  content : PyJson
  image_url : PyJson
  linkedin_url : PyJson
  created_at : Nat
  engagement_count : Nat
  source_type : PyJson
deriving Repr

/-- A row of `comment_history` (`database.py` lines 23-31). -/
structure CommentRec where
  post_id : PyJson
  commenter_name : PyJson
  comment_text : PyJson
  reply_sent : PyJson
  created_at : Nat
deriving Repr

/-- A row of `message_history` (`database.py` lines 33-40). -/
structure MessageRec where
  recipient_profile : PyJson
  message_text : PyJson
  context : PyJson
  sent_at : Nat
deriving Repr

/-- The three tables of the local store. -/
structure DB where
  posts : List PostRec
  comments : List CommentRec
  messages : List MessageRec
deriving Repr

/-! ## `app.py` handlers -/

/-- `/api/health` (`app.py` lines 60-64): OPTIONS preflight gets an empty
object, GET gets the status object. Neither carries a `success` flag. -/
def health (isOptions : Bool) : JResp :=
  if isOptions then ⟨200, []⟩
  else ⟨200, [("status", .str "healthy"), ("cors", .str "enabled")]⟩

/-- `/api/stop-automation` (`app.py` lines 66-99). `reqBody` is the value
of `request.json` (`.error` when reading it raised); here it is read inside
the `try`, so a body error becomes a 500 JSON error, as do the
`AttributeError` of `data.get` on a truthy non-dict body and the
`TypeError` of the `workflow_id in workflow_states` membership test when a
truthy `workflow_id` is unhashable (the test is short-circuited when it is
falsy). `stop_current_task` catches its own exceptions
(`agiopen_client.py` lines 25-41); the workflow-state bookkeeping touches
no persistent store and is elided, and it does not affect the response. -/
def stop_automation (isOptions : Bool) (reqBody : Except String PyJson) : JResp :=
  if isOptions then ⟨200, []⟩
  else
    match reqBody with
    | .error e => ⟨500, [("success", .bool false), ("error", .str e)]⟩
    | .ok dataRaw =>
      match (if pyTruthy dataRaw then dataRaw else .obj []) with
      | .obj kvs =>
        let workflow_id := (dictGet kvs "workflow_id").getD .null
        if pyTruthy workflow_id && !pyHashable workflow_id then
          ⟨500, [("success", .bool false),
                 ("error", .str ("unhashable type: \x27" ++ pyTypeName workflow_id ++ "\x27"))]⟩
        else
          ⟨200, [("success", .bool true),
                 ("message", .str "Automation stopped successfully. OAGI agent will release control of your screen.")]⟩
      | v =>
        -- `data = request.json or {}` kept a truthy non-dict; `data.get`
        -- raises AttributeError, caught by the handler's except.
        ⟨500, [("success", .bool false),
               ("error", .str ("\x27" ++ pyTypeName v ++ "\x27 object has no attribute \x27get\x27"))]⟩

/-- `/api/read-source` (`app.py` lines 101-149). The whole body, including
`data = request.json or {}`, is inside the `try`, so every exception becomes
a 500 JSON error. `source_data` falls back to an empty dict when falsy; a
truthy non-dict value for `data` or `source_data` raises `AttributeError`
at the corresponding `.get`, caught by the handler. -/
def read_source (isOptions : Bool) (reqBody : Except String PyJson) : JResp :=
  if isOptions then ⟨200, []⟩
  else
    match reqBody with
    | .error e => ⟨500, [("success", .bool false), ("error", .str e)]⟩
    | .ok dataRaw =>
      match (if pyTruthy dataRaw then dataRaw else .obj []) with
      | .obj kvs =>
        let source_type := dictGet kvs "source_type"
        let sdRaw := dictGetD kvs "source_data" .null
        let sd := if pyTruthy sdRaw then sdRaw else .obj []
        if !pyTruthyOpt source_type then
          ⟨400, [("success", .bool false), ("error", .str "source_type is required")]⟩
        else if pyEqStr (source_type.getD .null) "photo-capture" then
          ⟨400, [("success", .bool false),
                 ("error", .str "Photo capture should use the upload-photo endpoint first")]⟩
        else if pyEqStr (source_type.getD .null) "macbook-notes" then
          match sd with
          | .obj sdkvs => ⟨200, read_apple_notes (dictGet sdkvs "note_title")⟩
          | v =>
            ⟨500, [("success", .bool false),
                   ("error", .str ("\x27" ++ pyTypeName v ++ "\x27 object has no attribute \x27get\x27"))]⟩
        else if pyEqStr (source_type.getD .null) "google-docs" then
          match sd with
          | .obj sdkvs =>
            ⟨200, read_google_docs (dictGet sdkvs "doc_url") (dictGet sdkvs "doc_name")⟩
          | v =>
            ⟨500, [("success", .bool false),
                   ("error", .str ("\x27" ++ pyTypeName v ++ "\x27 object has no attribute \x27get\x27"))]⟩
        else if pyEqStr (source_type.getD .null) "plain-text" then
          match sd with
          | .obj sdkvs =>
            ⟨200, [("success", .bool true),
                   ("content", dictGetD sdkvs "text" (.str ""))]⟩
          | v =>
            ⟨500, [("success", .bool false),
                   ("error", .str ("\x27" ++ pyTypeName v ++ "\x27 object has no attribute \x27get\x27"))]⟩
        else
          ⟨400, [("success", .bool false), ("error", .str "Invalid source type")]⟩
      | v =>
        -- `data = request.json or {}` kept a truthy non-dict; `data.get`
        -- raises AttributeError, caught by the handler's except.
        ⟨500, [("success", .bool false),
               ("error", .str ("\x27" ++ pyTypeName v ++ "\x27 object has no attribute \x27get\x27"))]⟩

/-- The extension component of Python `os.path.splitext` (posix): the
extension is looked for after the last `/`, and runs from the last dot of
that final component, except that its leading dots do not start an
extension (so `".bashrc"` and `"a.b/c"` have none). -/
def splitextExt (filename : String) : String :=
  let base := (splitOnChar '/' filename.data).getLastD []
  let lead := base.takeWhile (· == '.')
  let rest := base.drop lead.length
  let revSuffix := rest.reverse.takeWhile (· ≠ '.')
  if revSuffix.length = rest.length then ""
  else String.mk ('.' :: revSuffix.reverse)

/-- `/api/upload-photo` (`app.py` lines 151-191). `photoFile` is
`request.files["photo"]`s filename when the part is present; `uuid8` the
hex fragment from `uuid.uuid4()`; `notes` the form field; `saveStep` the
outcome of the in-`try` filesystem writes (`os.makedirs` at line 169 and
`photo_file.save` at line 176), whose exception the handler turns into a
500 JSON error; `abspath` models `os.path.abspath`, applied to the
returned `photo_path`. -/
def upload_photo (isOptions : Bool) (photoFile : Option String) (notes : String)
    (uuid8 : String) (saveStep : Except String Unit) (abspath : String → String) : JResp :=
  if isOptions then ⟨200, []⟩
  else
    match photoFile with
    | none => ⟨400, [("success", .bool false), ("error", .str "No photo file provided")]⟩
    | some filename =>
      if filename = "" then
        ⟨400, [("success", .bool false), ("error", .str "No file selected")]⟩
      else
        let ext := splitextExt filename
        let fileExt := if ext = "" then ".jpg" else ext
        let photoFilename := "photo_" ++ uuid8 ++ fileExt
        match saveStep with
        | .error e => ⟨500, [("success", .bool false), ("error", .str e)]⟩
        | .ok _ =>
          ⟨200, [("success", .bool true),
                 ("photo_url", .str ("http://localhost:5001/api/images/uploads/" ++ photoFilename)),
                 ("photo_path", .str (abspath ("images/uploads/" ++ photoFilename))),
                 ("notes", .str notes)]⟩

/-- The Python `AttributeError` message for `x.get(...)` on a non-dict. -/
def noGetAttrMsg (v : PyJson) : String :=
  "\x27" ++ pyTypeName v ++ "\x27 object has no attribute \x27get\x27"

/-- Python `o == "s"` where `o` is a `dict.get` result: true only when the
value is present and is the equal string (`None == "s"` is `False`). -/
def optEqStr (o : Option PyJson) (s : String) : Bool :=
  match o with
  | some v => pyEqStr v s
  | none => false

/-- `/api/generate-content` (`app.py` lines 199-282). The lines
`data = request.json` and the five `data.get(...)` reads (lines 206-211)
run BEFORE the `try`, so when `request.json` raises, or returns a value
without a `.get` method (`null` for a `null` body, or any non-object), the
exception escapes the handler uncaught. Parameters: `postApi` is the
chat-completion call made by `generate_linkedin_post`; `imgRes` is
`image_gen.generate_post_image`s result (`some (path, url)` on success);
`photoExists` is `os.path.exists` for the uploaded photo; `copyStep` the
outcome of the in-`try` `os.makedirs`/`shutil.copy2` block (lines
232-235) run when the photo exists, whose exception the handler turns
into a 500 JSON error; `abspath` models `os.path.abspath`;
`commentApi`/`msgApi` are the chat calls of the comment and message
branches. -/
def generate_content (isOptions : Bool) (reqBody : Except String PyJson)
    (postApi : Except String String) (json_loads : String → Option PyJson)
    (imgRes : Option (String × String)) (photoExists : Bool)
    (copyStep : Except String Unit) (abspath : String → String)
    (commentApi msgApi : Except String String) :
    HOutcome :=
  if isOptions then .response ⟨200, []⟩
  else
    match reqBody with
    | .error e => .uncaught e
    | .ok (.obj kvs) =>
      let action_type := dictGet kvs "action_type"
      let photo_url := dictGet kvs "photo_url"
      let source_type := dictGetD kvs "source_type" (.str "plain-text")
      -- try:
      if optEqStr action_type "post" then
        if pyTruthyOpt photo_url && pyEqStr source_type "photo-capture" then
          let result := generate_linkedin_post postApi json_loads
          if pyTruthyOpt (dictGet result "success") then
            match photo_url with
            | some (.str u) =>
              let filename := String.mk ((splitOnChar '/' u.data).getLastD [])
              if photoExists then
                match copyStep with
                | .error e =>
                  -- `os.makedirs`/`shutil.copy2` raised inside the `try`;
                  -- the handler's except (line 281) answers 500.
                  .response ⟨500, [("success", .bool false), ("error", .str e)]⟩
                | .ok _ =>
                  .response ⟨200,
                    dictSet (dictSet result "image_path"
                        (.str (abspath ("images/linkedin_posts/" ++ filename))))
                      "image_url" (.str u)⟩
              else
                match imgRes with
                | some (p, iu) =>
                  .response ⟨200,
                    dictSet (dictSet result "image_path" (.str p)) "image_url" (.str iu)⟩
                | none => .response ⟨200, result⟩
            | some v =>
              -- `photo_url.split("/")` on a non-string raises AttributeError,
              -- caught by the handler's except (line 281) into a 500.
              .response ⟨500, [("success", .bool false),
                ("error", .str ("\x27" ++ pyTypeName v ++ "\x27 object has no attribute \x27split\x27"))]⟩
            | none =>
              .response ⟨500, [("success", .bool false),
                ("error", .str "\x27NoneType\x27 object has no attribute \x27split\x27")]⟩
          else .response ⟨500, result⟩
        else
          let result := generate_linkedin_post postApi json_loads
          if pyTruthyOpt (dictGet result "success") then
            match imgRes with
            | some (p, iu) =>
              .response ⟨200,
                dictSet (dictSet result "image_path" (.str p)) "image_url" (.str iu)⟩
            | none => .response ⟨200, result⟩
          else .response ⟨500, result⟩
      else if optEqStr action_type "comment" then
        .response ⟨200, [("success", .bool true),
          ("reply", .str (generate_linkedin_comment commentApi))]⟩
      else if optEqStr action_type "messages" then
        .response ⟨200, [("success", .bool true),
          ("message", .str (generate_linkedin_message msgApi))]⟩
      else
        .response ⟨400, [("success", .bool false), ("error", .str "Invalid action type")]⟩
    | .ok v => .uncaught (noGetAttrMsg v)

/-- `/api/create-post-draft` (`app.py` lines 284-310). `data = request.json`
and the two `data.get` reads (lines 289-291) run before the `try`.
`agiCall` is `agi_client.create_linkedin_post`: `.error e` when the
synchronous wrapper raised (caught by the handler), `.ok agentExec` the
agent-execution outcome fed to `create_linkedin_post_client`.
`workflowUuid` is the fresh `str(uuid.uuid4())`. -/
def create_post_draft (reqBody : Except String PyJson)
    (agiCall : Except String (Except String Unit)) (workflowUuid : String) :
    HOutcome :=
  match reqBody with
  | .error e => .uncaught e
  | .ok (.obj _kvs) =>
    match agiCall with
    | .error e => .response ⟨500, [("success", .bool false), ("error", .str e)]⟩
    | .ok agentExec =>
      let result := create_linkedin_post_client agentExec
      .response ⟨200,
        [("success", dictGetD result "success" (.bool false)),
         ("workflow_id", .str workflowUuid),
         ("preview_screenshot", dictGetD result "screenshot" .null)]⟩
  | .ok v => .uncaught (noGetAttrMsg v)

/-- The dict returned by
`AGIOpenClient.create_and_publish_linkedin_post` for each outcome of
`_create_and_publish_post_async` (`agiopen_client.py` lines 103-288). -/
def create_and_publish_linkedin_post : CPOutcome → List (String × PyJson)
  | .success =>
    [("success", .bool true),
     ("post_url", .str "Draft ready"),
     ("post_id", .str "draft"),
     ("message", .str "Post draft created successfully! Review and post manually on LinkedIn.")]
  | .stopped => [("success", .bool false), ("error", .str "Operation stopped by user")]
  | .cancelled => [("success", .bool false), ("error", .str "Operation cancelled")]
  | .timedOut => [("success", .bool false), ("error", .str "Operation timed out")]
  | .err e => [("success", .bool false), ("error", .str e)]

/-- Every name assigned anywhere in the body of `create_and_publish_post`
(`app.py` lines 312-411), so every name CPython treats as local to that
function, plus its imports. Transcribed from the source; the bare name
`image_url` read at line 385 is NOT among them. -/
def createAndPublishLocalNames : List String :=
  ["data", "post_content", "image_url_or_path", "image_path", "requests",
   "image_filename", "linkedin_posts_folder", "img_response",
   "linkedin_image_path", "f", "filename", "shutil", "result", "session",
   "post_record", "post_id", "e", "traceback"]

/-- Every module-level name of `app.py` (imports, module constants, the
service singletons and the handler functions). Transcribed from the source;
`image_url` is not among them, and it is not a Python builtin either. -/
def appModuleNames : List String :=
  ["Flask", "request", "jsonify", "send_from_directory", "CORS", "config",
   "AGIOpenClient", "OpenAIClient", "ImageGenerator", "Session",
   "PostHistory", "CommentHistory", "MessageHistory", "os", "uuid", "app",
   "is_allowed_origin", "after_request", "agi_client", "openai_client",
   "image_gen", "workflow_states", "active_tasks", "health",
   "stop_automation", "read_source", "upload_photo", "serve_uploaded_image",
   "generate_content", "create_post_draft", "create_and_publish_post",
   "publish_post", "get_post_comments", "reply_to_comments",
   "message_likers", "get_history"]

/-- CPython name resolution for a bare name read inside
`create_and_publish_post`: local scope, then module globals. (No relevant
builtin exists for the names tested here.) -/
def resolvesInCreateAndPublish (n : String) : Bool :=
  createAndPublishLocalNames.contains n || appModuleNames.contains n

/-- The `TypeError` raised (if any) by `len(v)` followed by the slice
`v[:100]` (`app.py` lines 372-373): `len` fails for a value without
`__len__` (a number or a boolean), and slicing a dict fails because a
slice is unhashable; a string or a list passes both. -/
def lenSliceErr : PyJson → Option String
  | .str _ => none
  | .arr _ => none
  | .obj _ => some "unhashable type: \x27slice\x27"
  | v => some ("object of type \x27" ++ pyTypeName v ++ "\x27 has no len()")

/-- `/api/create-and-publish-post` (`app.py` lines 312-411).
`data = request.json` and the two `data.get` reads (lines 317-319) run
before the `try`. `imageStep` is the outcome of the image
download-or-copy block (lines 322-366, filesystem/network side effects
only), which runs only when `image_path` in the body is truthy. The
`len(post_content)` print at line 372 and the `post_content[:100]` slice
at line 373 raise `TypeError` inside the `try` for a truthy content that
is neither a string nor a list (`lenSliceErr`), answered as a 500. When the
agent reports success, line 385 evaluates the bare name `image_url`, which
resolves neither locally nor globally, raising `NameError`; the handler's
`except` turns it into a 500 JSON error — so the insert at lines 390-391
and the success return at lines 395-401 are dead code. The dead branch is
kept, guarded by the name-resolution test, with the value the intended
`image_url_or_path or ""` expression would supply. `record_id` models the
autoincrement primary key as the table length. -/
def create_and_publish_post (reqBody : Except String PyJson)
    (imageStep : Except String Unit) (agent : CPOutcome) (uuid8 : String)
    (now : Nat) (db : DB) : HOutcome × DB :=
  match reqBody with
  | .error e => (.uncaught e, db)
  | .ok (.obj kvs) =>
    let post_content := dictGet kvs "post_content"
    let image_url_or_path := dictGet kvs "image_path"
    -- try:
    match (if pyTruthyOpt image_url_or_path then imageStep else .ok ()) with
    | .error e => (.response ⟨500, [("success", .bool false), ("error", .str e)]⟩, db)
    | .ok _ =>
      if !pyTruthyOpt post_content then
        (.response ⟨400, [("success", .bool false), ("error", .str "Post content is required")]⟩, db)
      else
        match lenSliceErr (post_content.getD .null) with
        | some msg =>
          -- the `len(post_content)` print at line 372 (or the slice at
          -- line 373) raises TypeError for a truthy non-string, non-list
          -- content; the handler's except answers 500 before the agent runs.
          (.response ⟨500, [("success", .bool false), ("error", .str msg)]⟩, db)
        | none =>
          let result := create_and_publish_linkedin_post agent
          if pyTruthyOpt (dictGet result "success") then
            if resolvesInCreateAndPublish "image_url" then
              let record : PostRec :=
                { post_id := dictGetD result "post_id" (.str ("draft_" ++ uuid8)),
                  content := post_content.getD .null,
                  image_url := if pyTruthyOpt image_url_or_path
                               then image_url_or_path.getD .null else .str "",
                  linkedin_url := dictGetD result "post_url" (.str "Draft ready"),
                  created_at := now,
                  engagement_count := 0,
                  source_type := .str "automated" }
              (.response ⟨200,
                 [("success", .bool true),
                  ("post_url", dictGetD result "post_url" (.str "Draft ready")),
                  ("post_id", dictGetD result "post_id" (.str "draft")),
                  ("message", dictGetD result "message"
                    (.str "Post draft created successfully! Review and post manually on LinkedIn.")),
                  ("record_id", .num (Int.ofNat db.posts.length))]⟩,
               { db with posts := db.posts ++ [record] })
            else
              (.response ⟨500,
                 [("success", .bool false),
                  ("error", .str "name \x27image_url\x27 is not defined")]⟩, db)
          else
            (.response ⟨500,
               [("success", .bool false),
                ("error", dictGetD result "error" (.str "Failed to publish post"))]⟩, db)
  | .ok v => (.uncaught (noGetAttrMsg v), db)

/-- A `workflow_states` entry as created by `create_post_draft`
(`app.py` lines 296-301): both keys are always present, the values come
straight from the request body. -/
structure Workflow where
  post_content : PyJson
  image_path : PyJson
  status : String
deriving Repr

/-- Python `workflow_id in workflow_states` followed by the dict lookup:
keys of `workflow_states` are uuid strings, so only a string value can
match; any other hashable value simply fails membership. -/
def lookupWorkflow (wid : PyJson) (wfs : List (String × Workflow)) : Option Workflow :=
  match wid with
  | .str s => (wfs.find? (fun p => p.1 == s)).map (·.2)
  | _ => none

/-- `/api/publish-post` (`app.py` lines 413-456). `data = request.json`,
`data.get` and the `workflow_id not in workflow_states` membership test
(lines 418-422) run before the `try`: a body that is not a JSON object
escapes as `AttributeError`, and an unhashable `workflow_id` (a list or an
object) escapes as `TypeError`. Inside the `try`, on agent success a
`PostHistory` row is inserted with `engagement_count` left to its column
default `0`. -/
def publish_post (reqBody : Except String PyJson)
    (wfs : List (String × Workflow)) (agiCall : Except String (Except String Unit))
    (now : Nat) (db : DB) : HOutcome × DB :=
  match reqBody with
  | .error e => (.uncaught e, db)
  | .ok (.obj kvs) =>
    let wid := (dictGet kvs "workflow_id").getD .null
    if !pyHashable wid then
      (.uncaught ("unhashable type: \x27" ++ pyTypeName wid ++ "\x27"), db)
    else
      match lookupWorkflow wid wfs with
      | none =>
        (.response ⟨404, [("success", .bool false), ("error", .str "Workflow not found")]⟩, db)
      | some wf =>
        -- try:
        match agiCall with
        | .error e =>
          (.response ⟨500, [("success", .bool false), ("error", .str e)]⟩, db)
        | .ok agentExec =>
          let result := publish_post_client agentExec
          if pyTruthyOpt (dictGet result "success") then
            let record : PostRec :=
              { post_id := dictGetD result "post_id" (.str ""),
                content := wf.post_content,
                image_url := wf.image_path,
                linkedin_url := dictGetD result "post_url" (.str ""),
                created_at := now,
                engagement_count := 0,
                source_type := .str "unknown" }
            (.response ⟨200,
               [("success", .bool true),
                ("post_url", dictGetD result "post_url" .null),
                ("post_id", dictGetD result "post_id" .null)]⟩,
             { db with posts := db.posts ++ [record] })
          else
            (.response ⟨500, [("success", .bool false), ("error", .str "Failed to publish")]⟩, db)
  | .ok v => (.uncaught (noGetAttrMsg v), db)

/-- `/api/get-post-comments` (`app.py` lines 458-493). `data = request.json`
and `data.get` (lines 463-464) run before the `try`. The agent placeholder
constantly fails, so the handler always answers with the placeholder dict
and status 500 (the reply-generation loop at lines 469-488 is dead code and
its guard is kept). -/
def get_post_comments (reqBody : Except String PyJson) : HOutcome :=
  match reqBody with
  | .error e => .uncaught e
  | .ok (.obj kvs) =>
    let result := get_post_comments_client (dictGet kvs "post_url")
    if pyTruthyOpt (dictGet result "success") then
      .response ⟨200, [("success", .bool true),
        ("comments", dictGetD result "comments" (.arr [])),
        ("suggested_replies", .arr [])]⟩
    else .response ⟨500, result⟩
  | .ok v => .uncaught (noGetAttrMsg v)

/-- The loop body of `/api/reply-to-comments` (`app.py` lines 508-525):
each item must be a dict carrying both `comment_text` and `reply_text`
(else `KeyError`/`TypeError`, caught by the handler); the placeholder
`reply_to_comment` always fails, so no `CommentHistory` row is ever added
and each iteration just accumulates the failure dict. -/
def replyItemsLoop (post_url : Option PyJson) :
    List PyJson → Except String (List (List (String × PyJson)))
  | [] => .ok []
  | item :: rest =>
    match item with
    | .obj ikvs =>
      match dictGet ikvs "comment_text" with
      | none => .error "\x27comment_text\x27"
      | some ct =>
        match dictGet ikvs "reply_text" with
        | none => .error "\x27reply_text\x27"
        | some rt =>
          let result := reply_to_comment_client post_url (some ct) (some rt)
          (replyItemsLoop post_url rest).map (result :: ·)
    | v => .error ("\x27" ++ pyTypeName v ++ "\x27 object is not subscriptable")

/-- Python iteration of the `comments` value (`for item in comments_to_reply`):
a list iterates its items; a string or dict iterates characters/keys, whose
indexing then raises on the first element; other values are not iterable. -/
def pyIterItems : PyJson → Except String (List PyJson)
  | .arr xs => .ok xs
  | .str s =>
    if s.isEmpty then .ok []
    else .error "string indices must be integers"
  | .obj kvs =>
    if kvs.isEmpty then .ok []
    else .error "string indices must be integers"
  | v => .error ("\x27" ++ pyTypeName v ++ "\x27 object is not iterable")

/-- `/api/reply-to-comments` (`app.py` lines 495-537). `data = request.json`
and the two `data.get` reads (lines 500-502) run before the `try`. Because
the placeholder agent call always fails, the store is never modified and
the success response reports zero replies sent. -/
def reply_to_comments (reqBody : Except String PyJson) (db : DB) : HOutcome × DB :=
  match reqBody with
  | .error e => (.uncaught e, db)
  | .ok (.obj kvs) =>
    let post_url := dictGet kvs "post_url"
    let comments := dictGetD kvs "comments" (.arr [])
    -- try:
    match pyIterItems comments with
    | .error e => (.response ⟨500, [("success", .bool false), ("error", .str e)]⟩, db)
    | .ok items =>
      match replyItemsLoop post_url items with
      | .error e => (.response ⟨500, [("success", .bool false), ("error", .str e)]⟩, db)
      | .ok results =>
        (.response ⟨200,
           [("success", .bool true),
            ("replies_sent", .num (Int.ofNat
              (results.filter (fun r => pyTruthyOpt (dictGet r "success"))).length)),
            ("results", .arr (results.map PyJson.obj))]⟩, db)
  | .ok v => (.uncaught (noGetAttrMsg v), db)

/-- `/api/message-likers` (`app.py` lines 539-596). `data = request.json`
and `data.get` (lines 543-545) run before the `try`. The likers placeholder
constantly fails, so the handler always answers 500 with the placeholder
dict and the messaging loop (lines 554-593, dead code) never runs; the
store is never modified. -/
def message_likers (reqBody : Except String PyJson) (db : DB) : HOutcome × DB :=
  match reqBody with
  | .error e => (.uncaught e, db)
  | .ok (.obj kvs) =>
    let likers_result := get_post_likers_client (dictGet kvs "post_url")
    if !pyTruthyOpt (dictGet likers_result "success") then
      (.response ⟨500, likers_result⟩, db)
    else
      (.response ⟨200,
         [("success", .bool true), ("messages_sent", .num 0), ("results", .arr [])]⟩, db)
  | .ok v => (.uncaught (noGetAttrMsg v), db)

/-! ## `/api/history` -/

/-- Descending order on a numeric key: the row ordering produced by
`ORDER BY key DESC`. -/
def descBy {α : Type} (key : α → Nat) (a b : α) : Prop := key b ≤ key a

instance {α : Type} (key : α → Nat) : DecidableRel (descBy key) :=
  fun a b => Nat.decLe (key b) (key a)

instance {α : Type} (key : α → Nat) : IsTotal α (descBy key) :=
  ⟨fun a b => Nat.le_total (key b) (key a)⟩

instance {α : Type} (key : α → Nat) : IsTrans α (descBy key) :=
  ⟨fun _ _ _ h1 h2 => Nat.le_trans h2 h1⟩

/-- `session.query(PostHistory).order_by(created_at.desc()).limit(20)`. -/
def historyPosts (db : DB) : List PostRec :=
  (List.insertionSort (descBy PostRec.created_at) db.posts).take 20

/-- `session.query(CommentHistory).order_by(created_at.desc()).limit(50)`. -/
def historyComments (db : DB) : List CommentRec :=
  (List.insertionSort (descBy CommentRec.created_at) db.comments).take 50

/-- `session.query(MessageHistory).order_by(sent_at.desc()).limit(30)`. -/
def historyMessages (db : DB) : List MessageRec :=
  (List.insertionSort (descBy MessageRec.sent_at) db.messages).take 30

/-- `v[:100] + "..." if len(v) > 100 else v` for a stored column value:
only defined for values with a `len`; a slice of a list cannot be
concatenated with `"..."` and a dict cannot be sliced, so oversized
non-strings raise, as does `len` of `None`/numbers. The error string is
the `str(e)` of the raised `TypeError`. -/
def pyTrunc (v : PyJson) : Except String PyJson :=
  match v with
  | .str s => .ok (if s.length > 100 then .str (strTake s 100 ++ "...") else .str s)
  | .arr xs =>
    if xs.length > 100 then .error "can only concatenate list (not \x22str\x22) to list"
    else .ok (.arr xs)
  | .obj kvs =>
    if kvs.length > 100 then .error "unhashable type: \x27slice\x27"
    else .ok (.obj kvs)
  | v => .error ("object of type \x27" ++ pyTypeName v ++ "\x27 has no len()")

/-- One entry of the `posts` list of `/api/history` (`app.py` lines
621-627). `created_at` is emitted as its numeric model (the code emits
`isoformat()`; the timestamp is always populated by the column default). -/
def mkPostItem (p : PostRec) : Except String PyJson := do
  let c ← pyTrunc p.content
  .ok (.obj
    [("id", p.post_id), ("content", c), ("url", p.linkedin_url),
     ("created_at", .num (Int.ofNat p.created_at)),
     ("engagement_count", .num (Int.ofNat p.engagement_count))])

/-- One entry of the `comments` list of `/api/history` (lines 628-633). -/
def mkCommentItem (c : CommentRec) : Except String PyJson := do
  let r ← pyTrunc c.reply_sent
  .ok (.obj
    [("post_id", c.post_id), ("commenter", c.commenter_name), ("reply", r),
     ("created_at", .num (Int.ofNat c.created_at))])

/-- One entry of the `messages` list of `/api/history` (lines 634-638):
no truncation is applied. -/
def mkMessageItem (m : MessageRec) : PyJson :=
  .obj [("recipient", m.recipient_profile), ("context", m.context),
        ("sent_at", .num (Int.ofNat m.sent_at))]

/-- The list-comprehension loop of `/api/history`: render each row in
order, stopping at the first raised `TypeError`. -/
def mapExcept {α β : Type} (f : α → Except String β) : List α → Except String (List β)
  | [] => .ok []
  | a :: as =>
    match f a with
    | .error e => .error e
    | .ok b =>
      match mapExcept f as with
      | .error e => .error e
      | .ok bs => .ok (b :: bs)

/-- `/api/history` (`app.py` lines 598-642): the three bounded
newest-first queries rendered to JSON. The success body carries no
`success` flag; any `TypeError` from rendering a non-string stored content
is caught by the handler into a 500 JSON error. -/
def get_history (db : DB) : JResp :=
  match mapExcept mkPostItem (historyPosts db) with
  | .error e => ⟨500, [("success", .bool false), ("error", .str e)]⟩
  | .ok ps =>
    match mapExcept mkCommentItem (historyComments db) with
    | .error e => ⟨500, [("success", .bool false), ("error", .str e)]⟩
    | .ok cs =>
      ⟨200, [("posts", .arr ps), ("comments", .arr cs),
             ("messages", .arr ((historyMessages db).map mkMessageItem))]⟩

/-! ## The operations that can touch the store -/

/-- One invocation of any `app.py` handler, carrying the request data and
the external-collaborator outcomes it depends on. Handlers that never
touch the store are collapsed into `opReadOnly`. -/
inductive AppOp where
  | opCreatePublish (reqBody : Except String PyJson) (imageStep : Except String Unit)
      (agent : CPOutcome) (uuid8 : String) (now : Nat)
  | opPublish (reqBody : Except String PyJson) (wfs : List (String × Workflow))
      (agiCall : Except String (Except String Unit)) (now : Nat)
  | opReplyComments (reqBody : Except String PyJson)
  | opMessageLikers (reqBody : Except String PyJson)
  | opReadOnly

/-- The store transformation of one handler invocation. -/
def applyOp (op : AppOp) (db : DB) : DB :=
  match op with
  | .opCreatePublish rb im ag u n => (create_and_publish_post rb im ag u n db).2
  | .opPublish rb wfs ac n => (publish_post rb wfs ac n db).2
  | .opReplyComments rb => (reply_to_comments rb db).2
  | .opMessageLikers rb => (message_likers rb db).2
  | .opReadOnly => db

/-- The empty store (`Base.metadata.create_all` on a fresh database). -/
def emptyDB : DB := ⟨[], [], []⟩

/-! ## Theorems for the claims -/

/-- A pointwise model of Python `json.loads` on the strings the closed
theorems below evaluate it at: `"{}"` (written with escapes) parses to the
empty JSON object; the other strings reaching it (`"x"`, a plain word) are
not valid JSON, so `json.loads` raises `JSONDecodeError`. -/
def json_loads0 : String → Option PyJson :=
  fun s => if s = "\x7b\x7d" then some (.obj []) else none

/-- `pyEqStr` is Python string equality. -/
theorem pyEqStr_eq_true {v : PyJson} {s : String} :
    pyEqStr v s = true ↔ v = .str s := by
  cases v <;> simp [pyEqStr]

/-- Claim C1 (code bug): a request to `/api/create-and-publish-post` whose
body is `{"post_content": "Hello world"}` and for which the automation agent
reports success does NOT insert a record and does NOT return success: line
385 of `app.py` reads the undefined name `image_url` (the actual variable is
`image_url_or_path`), so `NameError` is raised before `session.add`, caught
by the handler into a 500 failure, and the store is left unchanged. The
claim (one Post record inserted, success response with the new id) describes
the dead code at lines 390-401. -/
theorem claim1_create_and_publish_name_error :
    create_and_publish_post (.ok (.obj [("post_content", .str "Hello world")]))
      (.ok ()) .success "abcd1234" 5 emptyDB =
    (.response ⟨500, [("success", .bool false),
       ("error", .str "name \x27image_url\x27 is not defined")]⟩, emptyDB) := rfl

/-- Claim C3 counterexample: the claim says the RAW text becomes the post
content when JSON parsing fails, but the code strips whitespace (and code
fences) first: for the service text `" x "` parsing fails, the call
succeeds, and the post content is `"x"`, not the raw `" x "`. -/
theorem claim3_counterexample_trimmed_content :
    json_loads0 (cleanContent " x ") = none ∧
    dictGet (generate_linkedin_post (.ok " x ") json_loads0) "success" =
      some (.bool true) ∧
    dictGet (generate_linkedin_post (.ok " x ") json_loads0) "post_content" =
      some (.str "x") ∧
    PyJson.str "x" ≠ PyJson.str " x " :=
  ⟨rfl, rfl, rfl, by simp⟩

/-- Helper: the hashtag list chosen in the fallback branch of
`generate_linkedin_post` has between one and five elements, whichever way
the choice goes. -/
theorem hashtagChoiceBound (hs : List String) :
    ((if hs.isEmpty then defaultHashtags else hs.take 5).map PyJson.str).length ≤ 5 ∧
    ((if hs.isEmpty then defaultHashtags else hs.take 5).map PyJson.str) ≠ [] := by
  rcases hs with _ | ⟨a, t⟩
  · simp [defaultHashtags]
  · refine ⟨?_, ?_⟩
    · simp only [List.isEmpty_cons, Bool.false_eq_true, if_false, List.length_map]
      exact List.length_take_le 5 (a :: t)
    · simp [List.take_succ_cons]

/-- Claim C3 (amended): for every text returned by the language-generation
service, when JSON parsing of the cleaned text (trimmed, code fences
removed - the very string whose parsing was attempted) fails,
`generate_linkedin_post` still returns a success result, with that cleaned
text as the post content and up to five hashtags harvested from its lines
containing `#`, falling back to the fixed default list when none are found;
the hashtag list is never empty and never longer than five. -/
theorem claim3_amended_fallback_success (raw : String)
    (jl : String → Option PyJson) (h : jl (cleanContent raw) = none) :
    generate_linkedin_post (.ok raw) jl =
      [("success", .bool true),
       ("post_content", .str (cleanContent raw)),
       ("hashtags", .arr ((if (extractHashtags (cleanContent raw)).isEmpty
                           then defaultHashtags
                           else (extractHashtags (cleanContent raw)).take 5).map PyJson.str)),
       ("image_description",
        .str "Professional LinkedIn post image, business setting, modern design")] ∧
    (∀ l, dictGet (generate_linkedin_post (.ok raw) jl) "hashtags" = some (.arr l) →
       l.length ≤ 5 ∧ l ≠ []) := by
  constructor
  · simp only [generate_linkedin_post, h]
  · intro l hl
    simp [generate_linkedin_post, h, dictGet] at hl
    subst hl
    simpa using hashtagChoiceBound (extractHashtags (cleanContent raw))

/-- Witness for C3: a concrete non-JSON service text with one hashtag line. -/
theorem claim3_amended_witness :
    generate_linkedin_post (.ok "hello #World") (fun _ => none) =
      [("success", .bool true),
       ("post_content", .str "hello #World"),
       ("hashtags", .arr [.str "#World"]),
       ("image_description",
        .str "Professional LinkedIn post image, business setting, modern design")] :=
  ((claim3_amended_fallback_success "hello #World" (fun _ => none) rfl).1).trans (by rfl)

/-- Claim C4: the four placeholder agent-client operations return, for every
input, the constant failure dict with `success` false, a non-empty error
string, and (where applicable) an empty `comments`/`likers` list - no
automation is performed, the inputs are ignored. -/
theorem claim4_placeholders_fail_constantly
    (post_url profile_url comment_text reply_text : Option PyJson)
    (message : String) :
    get_post_comments_client post_url =
      [("success", .bool false), ("comments", .arr []),
       ("error", .str "Comment extraction not yet implemented with OAGI SDK")] ∧
    get_post_likers_client post_url =
      [("success", .bool false), ("likers", .arr []),
       ("error", .str "Likers extraction not yet implemented with OAGI SDK")] ∧
    message_user_client profile_url message =
      [("success", .bool false),
       ("error", .str "Messaging not yet implemented with OAGI SDK")] ∧
    reply_to_comment_client post_url comment_text reply_text =
      [("success", .bool false),
       ("error", .str "Use reply_to_comments_automated for batch replies")] :=
  ⟨rfl, rfl, rfl, rfl⟩

theorem read_source_macbook (kvs : List (String × PyJson))
    (sdOk : pyTruthy (dictGetD kvs "source_data" .null) = false ∨
            ∃ skvs, dictGetD kvs "source_data" .null = .obj skvs)
    (hst : dictGet kvs "source_type" = some (.str "macbook-notes")) :
    read_source false (.ok (.obj kvs)) =
      ⟨200, [("success", .bool false), ("content", .str ""),
             ("error", .str "Apple Notes reading via OAGI requires additional clipboard handling. Please use \x27Plain Text\x27 option for now.")]⟩ := by
  have hk : pyTruthy (.obj kvs) = true := by
    cases kvs
    · simp [dictGet] at hst
    · simp [pyTruthy]
  unfold read_source
  rw [if_neg (by simp)]
  dsimp only
  rw [hk, if_pos rfl]
  dsimp only
  rw [hst]
  rw [if_neg (by decide), if_neg (by decide), if_pos (by decide)]
  rcases sdOk with hfal | ⟨skvs, hobj⟩
  · rw [hfal, if_neg (by decide)]
    rfl
  · rw [hobj]
    rcases hsk : pyTruthy (.obj skvs) with _ | _
    · rw [if_neg (by decide)]
      rfl
    · rfl

theorem read_google_docs_error_shape (du dn : Option PyJson) :
    ∃ e, read_google_docs du dn =
      [("success", .bool false), ("content", .str ""), ("error", .str e)] ∧
      (e = "Please provide a Google Docs URL to read the document. Use \x27Plain Text\x27 option for manual input." ∨
       e = "Google Docs reading via OAGI is not yet implemented. Please use \x27Plain Text\x27 option.") := by
  unfold read_google_docs
  split
  · exact ⟨_, rfl, Or.inl rfl⟩
  · exact ⟨_, rfl, Or.inr rfl⟩

theorem read_source_google (kvs : List (String × PyJson))
    (sdOk : pyTruthy (dictGetD kvs "source_data" .null) = false ∨
            ∃ skvs, dictGetD kvs "source_data" .null = .obj skvs)
    (hst : dictGet kvs "source_type" = some (.str "google-docs")) :
    ∃ e, read_source false (.ok (.obj kvs)) =
      ⟨200, [("success", .bool false), ("content", .str ""), ("error", .str e)]⟩ ∧
      (e = "Please provide a Google Docs URL to read the document. Use \x27Plain Text\x27 option for manual input." ∨
       e = "Google Docs reading via OAGI is not yet implemented. Please use \x27Plain Text\x27 option.") := by
  have hk : pyTruthy (.obj kvs) = true := by
    cases kvs
    · simp [dictGet] at hst
    · simp [pyTruthy]
  have key : ∃ du dn, read_source false (.ok (.obj kvs)) = ⟨200, read_google_docs du dn⟩ := by
    unfold read_source
    rw [if_neg (by simp)]
    dsimp only
    rw [hk, if_pos rfl]
    dsimp only
    rw [hst]
    rw [if_neg (by decide), if_neg (by decide), if_neg (by decide), if_pos (by decide)]
    rcases sdOk with hfal | ⟨skvs, hobj⟩
    · rw [hfal, if_neg (by decide)]
      exact ⟨_, _, rfl⟩
    · rw [hobj]
      rcases hsk : pyTruthy (.obj skvs) with _ | _
      · rw [if_neg (by decide)]
        exact ⟨_, _, rfl⟩
      · exact ⟨_, _, rfl⟩
  rcases key with ⟨du, dn, hkey⟩
  rcases read_google_docs_error_shape du dn with ⟨e, he, hor⟩
  refine ⟨e, ?_, hor⟩
  rw [hkey, he]

theorem read_source_plain (kvs skvs : List (String × PyJson)) (s : String)
    (hobj : dictGetD kvs "source_data" .null = .obj skvs)
    (htext : dictGet skvs "text" = some (.str s))
    (hst : dictGet kvs "source_type" = some (.str "plain-text")) :
    read_source false (.ok (.obj kvs)) =
      ⟨200, [("success", .bool true), ("content", .str s)]⟩ := by
  have hk : pyTruthy (.obj kvs) = true := by
    cases kvs
    · simp [dictGet] at hst
    · simp [pyTruthy]
  have hsk : pyTruthy (.obj skvs) = true := by
    cases skvs
    · simp [dictGet] at htext
    · simp [pyTruthy]
  unfold read_source
  rw [if_neg (by simp)]
  dsimp only
  rw [hk, if_pos rfl]
  dsimp only
  rw [hst]
  rw [if_neg (by decide), if_neg (by decide), if_neg (by decide), if_neg (by decide),
      if_pos (by decide)]
  rw [hobj, hsk, if_pos rfl]
  dsimp only
  simp only [dictGetD, htext, Option.getD]

theorem dictGet_read_apple_notes (nt : Option PyJson) :
    dictGet (read_apple_notes nt) "success" = some (.bool false) := rfl

theorem dictGet_read_google_docs (du dn : Option PyJson) :
    dictGet (read_google_docs du dn) "success" = some (.bool false) := by
  unfold read_google_docs
  split <;> rfl

theorem read_source_success_only_plain (kvs2 : List (String × PyJson))
    (h : dictGet (read_source false (.ok (.obj kvs2))).body "success" = some (.bool true)) :
    dictGet kvs2 "source_type" = some (.str "plain-text") := by
  by_cases hp : pyEqStr ((dictGet kvs2 "source_type").getD PyJson.null) "plain-text" = true
  · rcases hs : dictGet kvs2 "source_type" with _ | v
    · rw [hs] at hp
      simp [pyEqStr] at hp
    · rw [hs] at hp
      simp only [Option.getD] at hp
      rw [pyEqStr_eq_true.mp hp]
  · exfalso
    rcases htr : pyTruthy (.obj kvs2) with _ | _
    · simp [read_source, htr, dictGet] at h
    · simp [read_source, htr] at h
      split_ifs at h <;>
        first
          | (exact hp (by assumption))
          | simp [dictGet] at h
          | (split at h <;>
              simp [dictGet_read_apple_notes, dictGet_read_google_docs, dictGet] at h)

/-- Claim C9: on `/api/read-source`, the `macbook-notes` and `google-docs`
source types always answer with a failure carrying an empty content string
and an error message pointing at the plain-text option (the exact strings
below, each of which names the `Plain Text` option); the `plain-text`
source type returns success with the provided text as content; and a
success flag is only ever true for the `plain-text` source type. The
`sdOk` hypothesis restricts `source_data` to the request shapes the claim
quantifies over: absent, falsy, or an object. -/
theorem claim9_read_source_dispatch
    (kvs skvs : List (String × PyJson)) (s : String)
    (sdOk : pyTruthy (dictGetD kvs "source_data" .null) = false ∨
            ∃ sk, dictGetD kvs "source_data" .null = .obj sk) :
    (dictGet kvs "source_type" = some (.str "macbook-notes") →
      read_source false (.ok (.obj kvs)) =
        ⟨200, [("success", .bool false), ("content", .str ""),
               ("error", .str "Apple Notes reading via OAGI requires additional clipboard handling. Please use \x27Plain Text\x27 option for now.")]⟩) ∧
    (dictGet kvs "source_type" = some (.str "google-docs") →
      ∃ e, read_source false (.ok (.obj kvs)) =
        ⟨200, [("success", .bool false), ("content", .str ""), ("error", .str e)]⟩ ∧
        (e = "Please provide a Google Docs URL to read the document. Use \x27Plain Text\x27 option for manual input." ∨
         e = "Google Docs reading via OAGI is not yet implemented. Please use \x27Plain Text\x27 option.")) ∧
    (dictGetD kvs "source_data" .null = .obj skvs →
      dictGet skvs "text" = some (.str s) →
      dictGet kvs "source_type" = some (.str "plain-text") →
      read_source false (.ok (.obj kvs)) =
        ⟨200, [("success", .bool true), ("content", .str s)]⟩) ∧
    (∀ kvs2, dictGet (read_source false (.ok (.obj kvs2))).body "success" = some (.bool true) →
      dictGet kvs2 "source_type" = some (.str "plain-text")) :=
  ⟨fun hst => read_source_macbook kvs sdOk hst,
   fun hst => read_source_google kvs sdOk hst,
   fun hobj htext hst => read_source_plain kvs skvs s hobj htext hst,
   fun kvs2 h => read_source_success_only_plain kvs2 h⟩

/-- Witness for C9: a concrete `macbook-notes` request. -/
theorem claim9_witness :
    read_source false (.ok (.obj [("source_type", .str "macbook-notes")])) =
      ⟨200, [("success", .bool false), ("content", .str ""),
             ("error", .str "Apple Notes reading via OAGI requires additional clipboard handling. Please use \x27Plain Text\x27 option for now.")]⟩ :=
  (claim9_read_source_dispatch [("source_type", .str "macbook-notes")] [] ""
    (Or.inl rfl)).1 rfl

theorem dictGet_dictSet_ne (kvs : List (String × PyJson)) (k : String) (v : PyJson)
    (q : String) (h : q ≠ k) : dictGet (dictSet kvs k v) q = dictGet kvs q := by
  induction kvs with
  | nil =>
    simp only [dictSet, dictGet]
    rw [if_neg (fun hq => h hq.symm)]
  | cons hd tl ih =>
    rcases hd with ⟨k1, v1⟩
    by_cases hk : k1 = k
    · subst hk
      simp only [dictSet, if_pos rfl, reduceIte, dictGet]
      rw [if_neg (fun hq => h hq.symm), if_neg (fun hq => h hq.symm)]
    · simp only [dictSet, hk, if_false, reduceIte]
      by_cases hq : k1 = q
      · simp [dictGet, hq]
      · simp [dictGet, hq, ih]

theorem glp_fields_none (raw : String) (jl : String → Option PyJson)
    (h : jl (cleanContent raw) = none) :
    dictGet (generate_linkedin_post (.ok raw) jl) "success" = some (.bool true) ∧
    dictGet (generate_linkedin_post (.ok raw) jl) "post_content" =
      some (.str (cleanContent raw)) ∧
    ∃ hs, dictGet (generate_linkedin_post (.ok raw) jl) "hashtags" = some hs := by
  refine ⟨?_, ?_, ?_⟩ <;> simp [generate_linkedin_post, h, dictGet]

theorem glp_fields_obj (raw : String) (jl : String → Option PyJson)
    (okvs : List (String × PyJson)) (h : jl (cleanContent raw) = some (.obj okvs)) :
    dictGet (generate_linkedin_post (.ok raw) jl) "success" = some (.bool true) ∧
    (∃ pc, dictGet (generate_linkedin_post (.ok raw) jl) "post_content" = some pc) ∧
    (∃ hs, dictGet (generate_linkedin_post (.ok raw) jl) "hashtags" = some hs) := by
  refine ⟨?_, ?_, ?_⟩ <;> simp [generate_linkedin_post, h, dictGet]

theorem glp_fields_nonobj (raw : String) (jl : String → Option PyJson)
    (v : PyJson) (h : jl (cleanContent raw) = some v)
    (hno : ∀ okvs, v ≠ PyJson.obj okvs) :
    dictGet (generate_linkedin_post (.ok raw) jl) "success" = some (.bool false) ∧
    ∃ e, dictGet (generate_linkedin_post (.ok raw) jl) "error" = some (.str e) := by
  unfold generate_linkedin_post
  dsimp only
  rw [h]
  cases v <;> first | exact absurd rfl (hno _) | exact ⟨rfl, _, rfl⟩

theorem glp_truthy_success (raw : String) (jl : String → Option PyJson)
    (hjson : jl (cleanContent raw) = none ∨
             ∃ okvs, jl (cleanContent raw) = some (.obj okvs)) :
    pyTruthyOpt (dictGet (generate_linkedin_post (.ok raw) jl) "success") = true := by
  rcases hjson with h | ⟨okvs, h⟩
  · rw [(glp_fields_none raw jl h).1]
    rfl
  · rw [(glp_fields_obj raw jl okvs h).1]
    rfl

/-- Claim C7 counterexample: with action `post` and a source text, when the
model call succeeds but returns the valid-JSON text `"{}"` (the empty
object), the endpoint answers 200/success with an EMPTY post content and an
EMPTY hashtag list - refuting the claim that the response contains non-empty
post content. (`json_loads0` models `json.loads` here; the image generation
fails, which only omits the image fields.) -/
theorem claim7_counterexample_empty_json_object :
    generate_content false
      (.ok (.obj [("action_type", .str "post"), ("source_content", .str "My launch notes")]))
      (.ok "\x7b\x7d") json_loads0 none false (.ok ()) id (.ok "") (.ok "") =
    .response ⟨200,
      [("success", .bool true), ("post_content", .str ""),
       ("hashtags", .arr []), ("image_description", .str "")]⟩ := rfl

/-- Claim C7 (amended): for every request to the content-generation endpoint
with action `post`, when the language-model call succeeds: (i) if its
output is either not valid JSON or a JSON object, and the request either
does not take the photo-capture path (no truthy `photo_url` together with
source type `photo-capture`) or takes it with a string photo reference
whose copy into the posts folder succeeds whenever the photo file exists,
then the response has status 200 with success true and carries
`post_content` and `hashtags` fields, the post content being the cleaned
output text when the output is not valid JSON (so non-empty whenever that
text is), while a valid-JSON object output may leave both fields empty;
(ii) an output that is valid JSON but not an object makes the endpoint
answer 500 with success false and an error string; (iii) on the
photo-capture path a truthy non-string photo reference makes it answer 500
with success false and an error string; (iv) on the photo-capture path
with the photo file present, a failing copy makes it answer 500 with
success false and the copy error. -/
theorem claim7_amended_post_generation_fields
    (kvs : List (String × PyJson)) (raw : String) (jl : String → Option PyJson)
    (imgRes : Option (String × String)) (photoExists : Bool)
    (copyStep : Except String Unit)
    (abspath : String → String) (ca ma : Except String String)
    (hact : dictGet kvs "action_type" = some (.str "post")) :
    ((jl (cleanContent raw) = none ∨
      ∃ okvs, jl (cleanContent raw) = some (.obj okvs)) →
     (pyTruthyOpt (dictGet kvs "photo_url") = false ∨
      pyEqStr (dictGetD kvs "source_type" (.str "plain-text")) "photo-capture" = false ∨
      ((∃ u, dictGet kvs "photo_url" = some (.str u)) ∧
       (photoExists = true → copyStep = Except.ok ()))) →
     ∃ r, generate_content false (.ok (.obj kvs)) (.ok raw) jl imgRes photoExists
         copyStep abspath ca ma = .response r ∧
       r.status = 200 ∧
       dictGet r.body "success" = some (.bool true) ∧
       (∃ pc, dictGet r.body "post_content" = some pc) ∧
       (∃ hs, dictGet r.body "hashtags" = some hs) ∧
       (jl (cleanContent raw) = none →
         dictGet r.body "post_content" = some (.str (cleanContent raw)))) ∧
    (∀ v, jl (cleanContent raw) = some v → (∀ okvs, v ≠ PyJson.obj okvs) →
     ∃ r, generate_content false (.ok (.obj kvs)) (.ok raw) jl imgRes photoExists
         copyStep abspath ca ma = .response r ∧
       r.status = 500 ∧
       dictGet r.body "success" = some (.bool false) ∧
       ∃ e, dictGet r.body "error" = some (.str e)) ∧
    (∀ v, dictGet kvs "photo_url" = some v → pyTruthy v = true →
     pyEqStr (dictGetD kvs "source_type" (.str "plain-text")) "photo-capture" = true →
     (∀ u, v ≠ PyJson.str u) →
     (jl (cleanContent raw) = none ∨
      ∃ okvs, jl (cleanContent raw) = some (.obj okvs)) →
     ∃ r, generate_content false (.ok (.obj kvs)) (.ok raw) jl imgRes photoExists
         copyStep abspath ca ma = .response r ∧
       r.status = 500 ∧
       dictGet r.body "success" = some (.bool false) ∧
       ∃ e, dictGet r.body "error" = some (.str e)) ∧
    (∀ u ce, dictGet kvs "photo_url" = some (.str u) → pyTruthy (.str u) = true →
     pyEqStr (dictGetD kvs "source_type" (.str "plain-text")) "photo-capture" = true →
     photoExists = true → copyStep = Except.error ce →
     (jl (cleanContent raw) = none ∨
      ∃ okvs, jl (cleanContent raw) = some (.obj okvs)) →
     generate_content false (.ok (.obj kvs)) (.ok raw) jl imgRes photoExists
         copyStep abspath ca ma =
       .response ⟨500, [("success", .bool false), ("error", .str ce)]⟩) := by
  have hpost : optEqStr (dictGet kvs "action_type") "post" = true := by
    rw [hact]
    rfl
  refine ⟨?_, ?_, ?_, ?_⟩
  · intro hjson hphoto
    have hsucc : dictGet (generate_linkedin_post (.ok raw) jl) "success" = some (.bool true) := by
      rcases hjson with h | ⟨okvs, h⟩
      · exact (glp_fields_none raw jl h).1
      · exact (glp_fields_obj raw jl okvs h).1
    have hpc : ∃ pc, dictGet (generate_linkedin_post (.ok raw) jl) "post_content" = some pc := by
      rcases hjson with h | ⟨okvs, h⟩
      · exact ⟨_, (glp_fields_none raw jl h).2.1⟩
      · exact (glp_fields_obj raw jl okvs h).2.1
    have hhs : ∃ hs, dictGet (generate_linkedin_post (.ok raw) jl) "hashtags" = some hs := by
      rcases hjson with h | ⟨okvs, h⟩
      · exact (glp_fields_none raw jl h).2.2
      · exact (glp_fields_obj raw jl okvs h).2.2
    have hpcnone : jl (cleanContent raw) = none →
        dictGet (generate_linkedin_post (.ok raw) jl) "post_content" =
          some (.str (cleanContent raw)) :=
      fun h => (glp_fields_none raw jl h).2.1
    have htruthy := glp_truthy_success raw jl hjson
    unfold generate_content
    rw [if_neg (by simp)]
    dsimp only
    rw [hpost, if_pos rfl]
    rcases hcond : (pyTruthyOpt (dictGet kvs "photo_url") &&
        pyEqStr (dictGetD kvs "source_type" (.str "plain-text")) "photo-capture") with _ | _
    · rw [if_neg (by decide)]
      rw [htruthy, if_pos rfl]
      rcases imgRes with _ | ⟨p, iu⟩
      · exact ⟨_, rfl, rfl, hsucc, hpc, hhs, hpcnone⟩
      · refine ⟨_, rfl, rfl, ?_, ?_, ?_, ?_⟩
        · rw [dictGet_dictSet_ne _ _ _ _ (by decide), dictGet_dictSet_ne _ _ _ _ (by decide)]
          exact hsucc
        · rw [dictGet_dictSet_ne _ _ _ _ (by decide), dictGet_dictSet_ne _ _ _ _ (by decide)]
          exact hpc
        · rw [dictGet_dictSet_ne _ _ _ _ (by decide), dictGet_dictSet_ne _ _ _ _ (by decide)]
          exact hhs
        · intro h
          rw [dictGet_dictSet_ne _ _ _ _ (by decide), dictGet_dictSet_ne _ _ _ _ (by decide)]
          exact hpcnone h
    · have hpair := hcond
      rw [Bool.and_eq_true] at hpair
      have hturl : pyTruthyOpt (dictGet kvs "photo_url") = true := hpair.1
      have huc : (∃ u, dictGet kvs "photo_url" = some (.str u)) ∧
          (photoExists = true → copyStep = Except.ok ()) := by
        rcases hphoto with hfalse | hps | huc
        · rw [hturl] at hfalse
          cases hfalse
        · have h2 := hpair.2
          rw [hps] at h2
          cases h2
        · exact huc
      rcases huc with ⟨⟨u, hu⟩, hcopy⟩
      rw [if_pos rfl]
      rw [htruthy, if_pos rfl]
      rw [hu]
      dsimp only
      rcases photoExists with _ | _
      · rcases imgRes with _ | ⟨p, iu⟩
        · rw [if_neg (by decide)]
          exact ⟨_, rfl, rfl, hsucc, hpc, hhs, hpcnone⟩
        · rw [if_neg (by decide)]
          refine ⟨_, rfl, rfl, ?_, ?_, ?_, ?_⟩
          · rw [dictGet_dictSet_ne _ _ _ _ (by decide), dictGet_dictSet_ne _ _ _ _ (by decide)]
            exact hsucc
          · rw [dictGet_dictSet_ne _ _ _ _ (by decide), dictGet_dictSet_ne _ _ _ _ (by decide)]
            exact hpc
          · rw [dictGet_dictSet_ne _ _ _ _ (by decide), dictGet_dictSet_ne _ _ _ _ (by decide)]
            exact hhs
          · intro h
            rw [dictGet_dictSet_ne _ _ _ _ (by decide), dictGet_dictSet_ne _ _ _ _ (by decide)]
            exact hpcnone h
      · rw [if_pos rfl]
        rw [hcopy rfl]
        dsimp only
        refine ⟨_, rfl, rfl, ?_, ?_, ?_, ?_⟩
        · rw [dictGet_dictSet_ne _ _ _ _ (by decide), dictGet_dictSet_ne _ _ _ _ (by decide)]
          exact hsucc
        · rw [dictGet_dictSet_ne _ _ _ _ (by decide), dictGet_dictSet_ne _ _ _ _ (by decide)]
          exact hpc
        · rw [dictGet_dictSet_ne _ _ _ _ (by decide), dictGet_dictSet_ne _ _ _ _ (by decide)]
          exact hhs
        · intro h
          rw [dictGet_dictSet_ne _ _ _ _ (by decide), dictGet_dictSet_ne _ _ _ _ (by decide)]
          exact hpcnone h
  · intro v hv hno
    have hsf := (glp_fields_nonobj raw jl v hv hno).1
    have herr := (glp_fields_nonobj raw jl v hv hno).2
    have hfalse : pyTruthyOpt (dictGet (generate_linkedin_post (.ok raw) jl) "success")
        = false := by
      rw [hsf]
      rfl
    unfold generate_content
    rw [if_neg (by simp)]
    dsimp only
    rw [hpost, if_pos rfl]
    rcases hcond : (pyTruthyOpt (dictGet kvs "photo_url") &&
        pyEqStr (dictGetD kvs "source_type" (.str "plain-text")) "photo-capture") with _ | _
    · rw [if_neg (by decide)]
      rw [hfalse, if_neg (by decide)]
      exact ⟨_, rfl, rfl, hsf, herr⟩
    · rw [if_pos rfl]
      rw [hfalse, if_neg (by decide)]
      exact ⟨_, rfl, rfl, hsf, herr⟩
  · intro v hv htr hst hno hjson
    have htruthy := glp_truthy_success raw jl hjson
    have h1 : pyTruthyOpt (dictGet kvs "photo_url") = true := by
      rw [hv]
      exact htr
    unfold generate_content
    rw [if_neg (by simp)]
    dsimp only
    rw [hpost, if_pos rfl]
    rw [h1, hst]
    rw [if_pos (by decide)]
    rw [htruthy, if_pos rfl]
    rw [hv]
    cases v with
    | null => exact absurd htr (by decide)
    | str u => exact absurd rfl (hno u)
    | bool b => exact ⟨_, rfl, rfl, rfl, _, rfl⟩
    | num n => exact ⟨_, rfl, rfl, rfl, _, rfl⟩
    | arr a => exact ⟨_, rfl, rfl, rfl, _, rfl⟩
    | obj o => exact ⟨_, rfl, rfl, rfl, _, rfl⟩
  · intro u ce hu htr hst hex hcs hjson
    have htruthy := glp_truthy_success raw jl hjson
    have h1 : pyTruthyOpt (dictGet kvs "photo_url") = true := by
      rw [hu]
      exact htr
    unfold generate_content
    rw [if_neg (by simp)]
    dsimp only
    rw [hpost, if_pos rfl]
    rw [h1, hst]
    rw [if_pos (by decide)]
    rw [htruthy, if_pos rfl]
    rw [hu]
    dsimp only
    rw [hex, if_pos rfl]
    rw [hcs]

/-- Witness for C7: a concrete `post` request with non-JSON model output,
instantiating part (i) of the amended statement. -/
theorem claim7_amended_witness :
    ∃ r, generate_content false
        (.ok (.obj [("action_type", .str "post"), ("source_content", .str "notes")]))
        (.ok "Great day #Win") (fun _ => none) none false (.ok ()) id (.ok "") (.ok "")
        = .response r ∧
      r.status = 200 ∧
      dictGet r.body "success" = some (.bool true) ∧
      (∃ pc, dictGet r.body "post_content" = some pc) ∧
      (∃ hs, dictGet r.body "hashtags" = some hs) ∧
      ((fun _ => (none : Option PyJson)) (cleanContent "Great day #Win") = none →
        dictGet r.body "post_content" = some (.str (cleanContent "Great day #Win"))) :=
  (claim7_amended_post_generation_fields
    [("action_type", .str "post"), ("source_content", .str "notes")]
    "Great day #Win" (fun _ => none) none false (.ok ()) id (.ok "") (.ok "")
    rfl).1 (Or.inl rfl) (Or.inl rfl)

/-- Claim C2 counterexample: a POST to `/api/generate-content` whose JSON
body is `null` makes `request.json` return `None`; the read
`data.get("source_content")` at `app.py` line 207 happens BEFORE the `try`
(line 213), so the `AttributeError` escapes the handler uncaught instead of
being turned into a JSON error body. -/
theorem claim2_counterexample_null_body_escapes :
    generate_content false (.ok .null) (.ok "") json_loads0 none false (.ok ()) id
      (.ok "") (.ok "") =
    .uncaught "\x27NoneType\x27 object has no attribute \x27get\x27" := rfl

/-- Claim C2 (amended): exceptions raised inside each handler's `try` block
are caught and become JSON error responses, and a request whose JSON body is
a JSON object never escapes any handler; but the body extraction of
`generate_content`, `create_post_draft`, `create_and_publish_post`,
`publish_post`, `get_post_comments`, `reply_to_comments` and
`message_likers` runs before the `try`, so a `null`/non-object body (or a
body-parse exception) escapes those handlers uncaught, and in
`publish_post` an unhashable `workflow_id` escapes as `TypeError` even for
an object body (hence the `hwid` hypothesis). `stop_automation` and
`read_source` read the body inside the `try` and convert even a body-parse
exception into a 500 JSON error, as does `create_post_draft` for an
exception raised by the agent call inside its `try`. -/
theorem claim2_amended_try_block_catches
    (kvs : List (String × PyJson)) (postApi ca ma : Except String String)
    (jl : String → Option PyJson) (imgRes : Option (String × String))
    (photoExists : Bool) (copyStep : Except String Unit) (abspath : String → String)
    (agiCall : Except String (Except String Unit)) (wuuid uuid8 : String)
    (imageStep : Except String Unit) (agent : CPOutcome)
    (wfs : List (String × Workflow)) (now : Nat) (db : DB) (e : String)
    (hwid : pyHashable ((dictGet kvs "workflow_id").getD .null) = true) :
    (∃ r, generate_content false (.ok (.obj kvs)) postApi jl imgRes photoExists
       copyStep abspath ca ma = .response r) ∧
    (∃ r, create_post_draft (.ok (.obj kvs)) agiCall wuuid = .response r) ∧
    (∃ r db2, create_and_publish_post (.ok (.obj kvs)) imageStep agent uuid8 now db
       = (.response r, db2)) ∧
    (∃ r db2, publish_post (.ok (.obj kvs)) wfs agiCall now db = (.response r, db2)) ∧
    (∃ r, get_post_comments (.ok (.obj kvs)) = .response r) ∧
    (∃ r db2, reply_to_comments (.ok (.obj kvs)) db = (.response r, db2)) ∧
    (∃ r db2, message_likers (.ok (.obj kvs)) db = (.response r, db2)) ∧
    stop_automation false (.error e) =
      ⟨500, [("success", .bool false), ("error", .str e)]⟩ ∧
    read_source false (.error e) =
      ⟨500, [("success", .bool false), ("error", .str e)]⟩ ∧
    create_post_draft (.ok (.obj kvs)) (.error e) wuuid =
      .response ⟨500, [("success", .bool false), ("error", .str e)]⟩ := by
  refine ⟨?_, ?_, ?_, ?_, ?_, ?_, ?_, rfl, rfl, rfl⟩
  · unfold generate_content
    rw [if_neg (by simp)]
    dsimp only
    repeat' split
    all_goals exact ⟨_, rfl⟩
  · unfold create_post_draft
    dsimp only
    repeat' split
    all_goals exact ⟨_, rfl⟩
  · unfold create_and_publish_post
    dsimp only
    repeat' split
    all_goals exact ⟨_, _, rfl⟩
  · unfold publish_post
    dsimp only
    rw [hwid]
    rw [if_neg (by decide)]
    repeat' split
    all_goals exact ⟨_, _, rfl⟩
  · unfold get_post_comments
    dsimp only
    repeat' split
    all_goals exact ⟨_, rfl⟩
  · unfold reply_to_comments
    dsimp only
    repeat' split
    all_goals exact ⟨_, _, rfl⟩
  · unfold message_likers
    dsimp only
    repeat' split
    all_goals exact ⟨_, _, rfl⟩

/-- Witness for C2: a concrete object-body request to the content-generation
endpoint produces a response (nothing escapes). -/
theorem claim2_amended_witness :
    ∃ r, generate_content false (.ok (.obj [])) (.ok "") json_loads0 none false
      (.ok ()) id (.ok "") (.ok "") = .response r :=
  (claim2_amended_try_block_catches [] (.ok "") (.ok "") (.ok "") json_loads0 none
    false (.ok ()) id (.ok (.ok ())) "w" "u" (.ok ()) .success [] 0 emptyDB "boom" rfl).1

theorem additive_of_cases {ps : List PostRec} {cs : List CommentRec}
    {ms : List MessageRec} (db2 : DB)
    (h : db2 = ⟨ps, cs, ms⟩ ∨
         ∃ rec, rec.engagement_count = 0 ∧ db2 = ⟨ps ++ [rec], cs, ms⟩) :
    ∃ np nc nm, db2 = ⟨ps ++ np, cs ++ nc, ms ++ nm⟩ ∧
      ∀ p ∈ np, p.engagement_count = 0 := by
  rcases h with rfl | ⟨rec, hz, rfl⟩
  · exact ⟨[], [], [], by simp, fun p hp => absurd hp (List.not_mem_nil p)⟩
  · refine ⟨[rec], [], [], by simp, ?_⟩
    intro p hp
    simp only [List.mem_singleton] at hp
    subst hp
    exact hz

theorem applyOp_additive (op : AppOp) (db : DB) :
    ∃ np nc nm, applyOp op db =
      ⟨db.posts ++ np, db.comments ++ nc, db.messages ++ nm⟩ ∧
      ∀ p ∈ np, p.engagement_count = 0 := by
  rcases db with ⟨ps, cs, ms⟩
  rcases op with ⟨rb, im, ag, u, n⟩ | ⟨rb, wfs, ac, n⟩ | rb | rb | _
  · unfold applyOp create_and_publish_post
    dsimp only
    repeat' split
    all_goals
      first
        | exact additive_of_cases _ (Or.inl rfl)
        | exact additive_of_cases _ (Or.inr ⟨_, rfl, rfl⟩)
  · unfold applyOp publish_post
    dsimp only
    repeat' split
    all_goals
      first
        | exact additive_of_cases _ (Or.inl rfl)
        | exact additive_of_cases _ (Or.inr ⟨_, rfl, rfl⟩)
  · unfold applyOp reply_to_comments
    dsimp only
    repeat' split
    all_goals exact additive_of_cases _ (Or.inl rfl)
  · unfold applyOp message_likers
    dsimp only
    repeat' split
    all_goals exact additive_of_cases _ (Or.inl rfl)
  · exact additive_of_cases _ (Or.inl rfl)

theorem foldl_engagement_zero (ops : List AppOp) :
    ∀ db : DB, (∀ p ∈ db.posts, p.engagement_count = 0) →
      ∀ p ∈ (ops.foldl (fun d o => applyOp o d) db).posts, p.engagement_count = 0 := by
  induction ops with
  | nil => exact fun db hdb => hdb
  | cons o t ih =>
    intro db hdb
    simp only [List.foldl_cons]
    apply ih
    intro p hp
    rcases applyOp_additive o db with ⟨np, nc, nm, heq, hz⟩
    rw [heq] at hp
    simp only [List.mem_append] at hp
    rcases hp with h | h
    · exact hdb p h
    · exact hz p h

/-- Claim C8: the store is purely additive - every handler invocation leaves
the existing Post, Comment-reply and Message rows untouched and at most
appends new ones, every appended Post row has engagement count 0, and hence
in every store state reachable from the empty store by any sequence of
operations every Post row still carries the engagement count 0 it was
created with. -/
theorem claim8_store_additive :
    (∀ (op : AppOp) (db : DB), ∃ np nc nm, applyOp op db =
       ⟨db.posts ++ np, db.comments ++ nc, db.messages ++ nm⟩ ∧
       ∀ p ∈ np, p.engagement_count = 0) ∧
    (∀ ops : List AppOp,
       ∀ p ∈ (ops.foldl (fun d o => applyOp o d) emptyDB).posts,
         p.engagement_count = 0) :=
  ⟨applyOp_additive,
   fun ops => foldl_engagement_zero ops emptyDB
     (fun _ hp => absurd hp (List.not_mem_nil _))⟩

/-- Witness for C8: a publish operation that actually inserts a row. -/
theorem claim8_witness :
    ∃ np nc nm,
      applyOp (.opPublish (.ok (.obj [("workflow_id", .str "w")]))
          [("w", ⟨.str "content", .null, "draft"⟩)] (.ok (.ok ())) 7) emptyDB =
        ⟨emptyDB.posts ++ np, emptyDB.comments ++ nc, emptyDB.messages ++ nm⟩ ∧
      ∀ p ∈ np, p.engagement_count = 0 :=
  claim8_store_additive.1
    (.opPublish (.ok (.obj [("workflow_id", .str "w")]))
      [("w", ⟨.str "content", .null, "draft"⟩)] (.ok (.ok ())) 7) emptyDB

/-- The program points at which an observed stop signal is fatal for the
operation: everything after the initial flag-clear has executed and before
the success return begins. -/
def stopWindow : List OpPC := [.atCheck1, .atCreate, .atLoop, .atCheck2, .atAwait]

/-- Invariant holding from the moment `stop_current_task` runs while the
async function sits inside `stopWindow`: the flag stays set and the
function can only end stopped-by-user or cancelled, with the slot clear. -/
def cpInv (s : CPState) : Prop :=
  s.flag = true ∧
  (((s.pc = .atCheck1 ∨ s.pc = .atCreate) ∧ s.slot = false ∧ s.result = none) ∨
   ((s.pc = .atLoop ∨ s.pc = .atCheck2) ∧ s.result = none) ∨
   (s.pc = .atAwait ∧ s.slot = false ∧ s.result = none) ∨
   (s.pc = .atDone ∧ (s.result = some .stopped ∨ s.result = some .cancelled) ∧
    s.slot = false))

theorem cpInv_step (s : CPState) (e : CPEvent) (h : cpInv s) : cpInv (cpStep s e) := by
  rcases s with ⟨flag, slot, task, pc, result⟩
  obtain ⟨hflag, hcase⟩ := h
  simp only at hflag
  subst hflag
  rcases hcase with ⟨hpc, hslot, hres⟩ | ⟨hpc, hres⟩ | ⟨hpc, hslot, hres⟩ | ⟨hpc, hres, hslot⟩
  · simp only at hpc hslot hres
    subst hslot
    subst hres
    rcases hpc with hpc | hpc <;> subst hpc <;>
      rcases e <;> cases task <;> simp [cpInv, cpStep, cpOpStep, cpStop, TaskStatus.isDone]
  · simp only at hpc hres
    subst hres
    rcases hpc with hpc | hpc <;> subst hpc <;>
      rcases e <;> cases slot <;> cases task <;>
        simp [cpInv, cpStep, cpOpStep, cpStop, TaskStatus.isDone]
  · simp only at hpc hslot hres
    subst hpc
    subst hslot
    subst hres
    rcases e <;> cases task <;> simp [cpInv, cpStep, cpOpStep, cpStop, TaskStatus.isDone]
  · simp only at hpc hres hslot
    subst hpc
    subst hslot
    rcases hres with hres | hres <;> subst hres <;>
      rcases e <;> cases task <;> simp [cpInv, cpStep, cpOpStep, cpStop, TaskStatus.isDone]

theorem cpInv_foldl (es : List CPEvent) :
    ∀ s, cpInv s → cpInv (es.foldl cpStep s) := by
  induction es with
  | nil => exact fun s h => h
  | cons e t ih =>
    intro s h
    simp only [List.foldl_cons]
    exact ih _ (cpInv_step s e h)

/-- The result cell is written only together with the jump to `atDone`. -/
def cpResultOK (s : CPState) : Prop := s.result = none ∨ s.pc = .atDone

theorem cpResultOK_step (s : CPState) (e : CPEvent) (h : cpResultOK s) :
    cpResultOK (cpStep s e) := by
  rcases s with ⟨flag, slot, task, pc, result⟩
  rcases h with h | h
  · simp only at h
    subst h
    rcases e <;> cases pc <;> cases flag <;> cases slot <;> cases task <;>
      simp [cpResultOK, cpStep, cpOpStep, cpStop, TaskStatus.isDone]
  · simp only at h
    subst h
    rcases e <;> cases flag <;> cases slot <;> cases task <;>
      simp [cpResultOK, cpStep, cpOpStep, cpStop, TaskStatus.isDone]

theorem cpResultOK_runCP (flag0 : Bool) (es : List CPEvent) :
    cpResultOK (runCP flag0 es) := by
  have gen : ∀ s, cpResultOK s → cpResultOK (es.foldl cpStep s) := by
    induction es with
    | nil => exact fun s h => h
    | cons e t ih =>
      intro s h
      simp only [List.foldl_cons]
      exact ih _ (cpResultOK_step s e h)
  exact gen (cpInit flag0) (Or.inl rfl)

/-- The interleaving refuting claim C5: the task is created and completes,
the function passes its post-loop stop check (line 242) and the done-check
at line 254, and only then does another request call `stop_current_task`;
the function still returns the success dict even though the stop flag was
set while the operation was in flight (its result not yet produced). -/
def lateStopTrace : List CPEvent :=
  [.step, .step, .step, .taskDone, .step, .step, .step, .stop, .step]

/-- Claim C5 counterexample: after `lateStopTrace` the operation ends in
success with the stop flag set, although the stop arrived (index 7) while
the operation was still in flight (no result after the first 7 events). -/
theorem claim5_counterexample_late_stop_success :
    (runCP false lateStopTrace).result = some .success ∧
    (runCP false lateStopTrace).flag = true ∧
    (runCP false (lateStopTrace.take 7)).result = none ∧
    lateStopTrace.get ⟨7, by decide⟩ = .stop :=
  ⟨rfl, rfl, rfl, rfl⟩

/-- Claim C5 (amended): when `stop_current_task` runs at a moment when the
in-flight `_create_and_publish_post_async` has already executed its initial
`_stop_flag.clear()` and has not yet passed its post-loop stop check (the
`stopWindow` program points), the operation never returns success: it ends
in the stopped-by-user failure (or the cancelled failure when the stop
lands before the task is created) and the current-task slot is cleared. A
stop landing after the post-loop check can still be followed by a success
return (`claim5_counterexample_late_stop_success`), and a stop landing
before the initial clear is erased by it. -/
theorem claim5_amended_stop_window (flag0 : Bool) (es : List CPEvent) (i : Nat)
    (hi : i < es.length) (hstop : es.get ⟨i, hi⟩ = .stop)
    (hwin : (runCP flag0 (es.take i)).pc ∈ stopWindow) :
    (runCP flag0 es).result ≠ some .success ∧
    ∀ r, (runCP flag0 es).result = some r →
      (r = .stopped ∨ r = .cancelled) ∧ (runCP flag0 es).slot = false := by
  have hres0 : (runCP flag0 (es.take i)).result = none := by
    rcases cpResultOK_runCP flag0 (es.take i) with h | h
    · exact h
    · rw [h] at hwin
      simp [stopWindow] at hwin
  have hstate : runCP flag0 (es.take (i + 1)) = cpStop (runCP flag0 (es.take i)) := by
    have htake : es.take (i + 1) = es.take i ++ [CPEvent.stop] := by
      have hgi : es[i]? = some CPEvent.stop := by
        rw [List.getElem?_eq_getElem hi]
        exact congrArg some hstop
      rw [List.take_succ, hgi]
      rfl
    rw [htake]
    simp [runCP, List.foldl_append, cpStep]
  have hinv1 : cpInv (runCP flag0 (es.take (i + 1))) := by
    rw [hstate]
    refine ⟨rfl, ?_⟩
    have hpc : (cpStop (runCP flag0 (es.take i))).pc = (runCP flag0 (es.take i)).pc := rfl
    have hslot : (cpStop (runCP flag0 (es.take i))).slot = false := rfl
    have hres : (cpStop (runCP flag0 (es.take i))).result = none := hres0
    simp only [stopWindow, List.mem_cons, List.not_mem_nil, or_false] at hwin
    rcases hwin with h | h | h | h | h
    · exact Or.inl ⟨Or.inl (hpc.trans h), hslot, hres⟩
    · exact Or.inl ⟨Or.inr (hpc.trans h), hslot, hres⟩
    · exact Or.inr (Or.inl ⟨Or.inl (hpc.trans h), hres⟩)
    · exact Or.inr (Or.inl ⟨Or.inr (hpc.trans h), hres⟩)
    · exact Or.inr (Or.inr (Or.inl ⟨hpc.trans h, hslot, hres⟩))
  have hfin : cpInv (runCP flag0 es) := by
    have hsplit : es = es.take (i + 1) ++ es.drop (i + 1) :=
      (List.take_append_drop _ _).symm
    have hrun : runCP flag0 es =
        (es.drop (i + 1)).foldl cpStep (runCP flag0 (es.take (i + 1))) := by
      conv_lhs => rw [hsplit]
      rw [runCP, runCP, List.foldl_append]
    rw [hrun]
    exact cpInv_foldl _ _ hinv1
  obtain ⟨hflag, hcase⟩ := hfin
  constructor
  · intro hs
    rcases hcase with ⟨_, _, h⟩ | ⟨_, h⟩ | ⟨_, _, h⟩ | ⟨_, h, _⟩
    · rw [hs] at h
      cases h
    · rw [hs] at h
      cases h
    · rw [hs] at h
      cases h
    · rcases h with h | h <;> rw [hs] at h <;> cases h
  · intro r hr
    rcases hcase with ⟨_, _, h⟩ | ⟨_, h⟩ | ⟨_, _, h⟩ | ⟨_, h, hslot⟩
    · rw [hr] at h
      cases h
    · rw [hr] at h
      cases h
    · rw [hr] at h
      cases h
    · rcases h with h | h
      · rw [hr] at h
        injection h with h2
        exact ⟨Or.inl h2, hslot⟩
      · rw [hr] at h
        injection h with h2
        exact ⟨Or.inr h2, hslot⟩

/-- Witness for C5: a stop arriving while the operation polls its task. -/
theorem claim5_amended_witness :
    (runCP false [.step, .step, .step, .stop, .step, .step]).result ≠ some .success :=
  (claim5_amended_stop_window false [.step, .step, .step, .stop, .step, .step] 3
    (by decide) rfl (by decide)).1

theorem mapExcept_posts (l : List PostRec)
    (h : ∀ p ∈ l, ∃ s, p.content = .str s) :
    ∃ ps, mapExcept mkPostItem l = .ok ps ∧
      List.Forall₂ (fun (p : PostRec) item =>
        ∃ s, p.content = .str s ∧
          item = .obj [("id", p.post_id),
            ("content", .str (if s.length > 100 then strTake s 100 ++ "..." else s)),
            ("url", p.linkedin_url),
            ("created_at", .num (Int.ofNat p.created_at)),
            ("engagement_count", .num (Int.ofNat p.engagement_count))]) l ps := by
  induction l with
  | nil => exact ⟨[], rfl, List.Forall₂.nil⟩
  | cons p t ih =>
    obtain ⟨s, hs⟩ := h p (List.mem_cons_self p t)
    obtain ⟨ps, hps, hfa⟩ := ih (fun q hq => h q (List.mem_cons_of_mem p hq))
    refine ⟨_ :: ps, ?_, List.Forall₂.cons ⟨s, hs, rfl⟩ hfa⟩
    have hitem : mkPostItem p = .ok (.obj [("id", p.post_id),
        ("content", .str (if s.length > 100 then strTake s 100 ++ "..." else s)),
        ("url", p.linkedin_url),
        ("created_at", .num (Int.ofNat p.created_at)),
        ("engagement_count", .num (Int.ofNat p.engagement_count))]) := by
      simp only [mkPostItem, hs, pyTrunc]
      split <;> rfl
    simp only [mapExcept, hitem, hps]

theorem mapExcept_comments (l : List CommentRec)
    (h : ∀ c ∈ l, ∃ s, c.reply_sent = .str s) :
    ∃ cs, mapExcept mkCommentItem l = .ok cs ∧
      List.Forall₂ (fun (c : CommentRec) item =>
        ∃ s, c.reply_sent = .str s ∧
          item = .obj [("post_id", c.post_id), ("commenter", c.commenter_name),
            ("reply", .str (if s.length > 100 then strTake s 100 ++ "..." else s)),
            ("created_at", .num (Int.ofNat c.created_at))]) l cs := by
  induction l with
  | nil => exact ⟨[], rfl, List.Forall₂.nil⟩
  | cons c t ih =>
    obtain ⟨s, hs⟩ := h c (List.mem_cons_self c t)
    obtain ⟨cs, hcs, hfa⟩ := ih (fun q hq => h q (List.mem_cons_of_mem c hq))
    refine ⟨_ :: cs, ?_, List.Forall₂.cons ⟨s, hs, rfl⟩ hfa⟩
    have hitem : mkCommentItem c = .ok (.obj [("post_id", c.post_id),
        ("commenter", c.commenter_name),
        ("reply", .str (if s.length > 100 then strTake s 100 ++ "..." else s)),
        ("created_at", .num (Int.ofNat c.created_at))]) := by
      simp only [mkCommentItem, hs, pyTrunc]
      split <;> rfl
    simp only [mapExcept, hitem, hcs]

theorem historyPosts_subset (db : DB) : ∀ p ∈ historyPosts db, p ∈ db.posts := by
  intro p hp
  have h1 : p ∈ List.insertionSort (descBy PostRec.created_at) db.posts :=
    List.take_subset _ _ hp
  exact (List.perm_insertionSort _ _).mem_iff.mp h1

theorem historyComments_subset (db : DB) : ∀ c ∈ historyComments db, c ∈ db.comments := by
  intro c hc
  have h1 : c ∈ List.insertionSort (descBy CommentRec.created_at) db.comments :=
    List.take_subset _ _ hc
  exact (List.perm_insertionSort _ _).mem_iff.mp h1

/-- The store states where the claim below fails: a Post row whose stored
content is `None`; `len(None)` raises in the rendering comprehension. -/
def dbNullContent : DB :=
  ⟨[⟨.str "p1", .null, .str "", .str "u", 3, 0, .str "automated"⟩], [], []⟩

/-- Claim C10 counterexample: for the store state holding one Post row with
a `None` content (a value the nullable Text column admits, and which
`publish_post` stores when a draft was created without `post_content`),
`/api/history` does not return the three lists at all: `len(None)` raises
`TypeError`, caught into a 500 error body without a `posts` list. -/
theorem claim10_counterexample_null_content :
    get_history dbNullContent =
      ⟨500, [("success", .bool false),
             ("error", .str "object of type \x27NoneType\x27 has no len()")]⟩ ∧
    dictGet (get_history dbNullContent).body "posts" = none :=
  ⟨rfl, rfl⟩

/-- Claim C10 (amended): for every store state in which every Post content
and every Comment reply text is a string (as all rows inserted with string
inputs are), the history endpoint returns 200 with at most 20 posts, at
most 50 comment-replies and at most 30 messages, each list ordered newest
first by its timestamp, and every rendered post content or reply text is
the stored string if it has at most 100 characters, else its first 100
characters followed by `...`. A row with a non-string content makes the
endpoint answer a 500 error instead
(`claim10_counterexample_null_content`). -/
theorem claim10_amended_history_shape (db : DB)
    (hp : ∀ p ∈ db.posts, ∃ s, p.content = .str s)
    (hc : ∀ c ∈ db.comments, ∃ s, c.reply_sent = .str s) :
    (historyPosts db).length ≤ 20 ∧
    (historyComments db).length ≤ 50 ∧
    (historyMessages db).length ≤ 30 ∧
    (historyPosts db).Pairwise (fun a b => b.created_at ≤ a.created_at) ∧
    (historyComments db).Pairwise (fun a b => b.created_at ≤ a.created_at) ∧
    (historyMessages db).Pairwise (fun a b => b.sent_at ≤ a.sent_at) ∧
    ∃ ps cs, get_history db =
      ⟨200, [("posts", .arr ps), ("comments", .arr cs),
             ("messages", .arr ((historyMessages db).map mkMessageItem))]⟩ ∧
      List.Forall₂ (fun (p : PostRec) item =>
        ∃ s, p.content = .str s ∧
          item = .obj [("id", p.post_id),
            ("content", .str (if s.length > 100 then strTake s 100 ++ "..." else s)),
            ("url", p.linkedin_url),
            ("created_at", .num (Int.ofNat p.created_at)),
            ("engagement_count", .num (Int.ofNat p.engagement_count))])
        (historyPosts db) ps ∧
      List.Forall₂ (fun (c : CommentRec) item =>
        ∃ s, c.reply_sent = .str s ∧
          item = .obj [("post_id", c.post_id), ("commenter", c.commenter_name),
            ("reply", .str (if s.length > 100 then strTake s 100 ++ "..." else s)),
            ("created_at", .num (Int.ofNat c.created_at))])
        (historyComments db) cs := by
  refine ⟨List.length_take_le _ _, List.length_take_le _ _, List.length_take_le _ _,
    ?_, ?_, ?_, ?_⟩
  · exact List.Pairwise.sublist (List.take_sublist _ _)
      (List.sorted_insertionSort (descBy PostRec.created_at) db.posts)
  · exact List.Pairwise.sublist (List.take_sublist _ _)
      (List.sorted_insertionSort (descBy CommentRec.created_at) db.comments)
  · exact List.Pairwise.sublist (List.take_sublist _ _)
      (List.sorted_insertionSort (descBy MessageRec.sent_at) db.messages)
  · obtain ⟨ps, hps, hfap⟩ :=
      mapExcept_posts (historyPosts db) (fun p hmem => hp p (historyPosts_subset db p hmem))
    obtain ⟨cs, hcs, hfac⟩ :=
      mapExcept_comments (historyComments db) (fun c hmem => hc c (historyComments_subset db c hmem))
    refine ⟨ps, cs, ?_, hfap, hfac⟩
    simp only [get_history, hps, hcs]

/-- A store for the C10 witness: two Post rows out of timestamp order, one
with a content longer than 100 characters. -/
def dbTwoPosts : DB :=
  ⟨[⟨.str "p1", .str (String.mk (List.replicate 101 'a')), .str "", .str "u1", 1, 0, .str "t"⟩,
    ⟨.str "p2", .str "short", .str "", .str "u2", 5, 0, .str "t"⟩], [], []⟩

/-- Witness for C10: the bounds and ordering hold on `dbTwoPosts`. -/
theorem claim10_amended_witness :
    (historyPosts dbTwoPosts).length ≤ 20 ∧
    (historyPosts dbTwoPosts).Pairwise (fun a b => b.created_at ≤ a.created_at) := by
  have h := claim10_amended_history_shape dbTwoPosts
    (by
      intro p hp
      rcases List.mem_cons.mp hp with rfl | hp2
      · exact ⟨_, rfl⟩
      · rcases List.mem_cons.mp hp2 with rfl | hp3
        · exact ⟨_, rfl⟩
        · cases hp3)
    (by
      intro c hcm
      cases hcm)
  exact ⟨h.1, h.2.2.2.1⟩

/-- Checker for the claimed response-body shape: a boolean `success` flag,
with a string `error` field whenever the flag is false. -/
def flagErrB (body : List (String × PyJson)) : Bool :=
  match dictGet body "success" with
  | some (.bool true) => true
  | some (.bool false) =>
    match dictGet body "error" with
    | some (.str _) => true
    | _ => false
  | _ => false

/-- Checker for mere presence of a boolean `success` flag. -/
def flagB (body : List (String × PyJson)) : Bool :=
  match dictGet body "success" with
  | some (.bool _) => true
  | _ => false

theorem glp_flagErrB (api : Except String String) (jl : String → Option PyJson) :
    flagErrB (generate_linkedin_post api jl) = true := by
  rcases api with e | raw
  · rfl
  · unfold generate_linkedin_post
    dsimp only
    rcases hjl : jl (cleanContent raw) with _ | v
    · rfl
    · rcases v <;> rfl

theorem flagErrB_dictSet_img (body : List (String × PyJson)) (p u : PyJson)
    (h : flagErrB body = true) :
    flagErrB (dictSet (dictSet body "image_path" p) "image_url" u) = true := by
  unfold flagErrB at h ⊢
  rw [dictGet_dictSet_ne _ _ _ _ (by decide), dictGet_dictSet_ne _ _ _ _ (by decide),
      dictGet_dictSet_ne _ _ _ _ (by decide), dictGet_dictSet_ne _ _ _ _ (by decide)]
  exact h

theorem flagErrB_read_google_docs (du dn : Option PyJson) :
    flagErrB (read_google_docs du dn) = true := by
  unfold read_google_docs
  split <;> rfl

/-- Claim C6 counterexample: the health endpoint answers with a status
object that carries no `success` flag at all, refuting "every endpoint
returns JSON with a success flag". -/
theorem claim6_counterexample_health_no_flag :
    health false = ⟨200, [("status", .str "healthy"), ("cors", .str "enabled")]⟩ ∧
    dictGet (health false).body "success" = none :=
  ⟨rfl, rfl⟩

/-- Claim C6 (amended): every JSON-returning endpoint except the health
check and the history success path answers with a body containing a boolean
`success` flag, and - except the deprecated draft-creation endpoint, whose
agent-failure response has the flag but no error string - a failing body
carries a string `error` (`flagErrB`); the health body and the history
success body carry no flag (their payload is the status object resp. the
three bare lists), and OPTIONS preflights return an empty object. For the
handlers that read their body before the `try`, the statement covers the
object-body requests that produce a response at all (claim C2 covers the
escaping ones). -/
theorem claim6_amended_response_shape
    (rb : Except String PyJson) (kvs : List (String × PyJson))
    (photoFile : Option String) (notes uuid8 wuuid : String)
    (postApi ca ma : Except String String) (jl : String → Option PyJson)
    (imgRes : Option (String × String)) (photoExists : Bool)
    (copyStep saveStep : Except String Unit)
    (abspath : String → String)
    (agiCall agiCall2 : Except String (Except String Unit))
    (imageStep : Except String Unit) (agent : CPOutcome)
    (wfs : List (String × Workflow)) (now : Nat) (db : DB) :
    flagErrB (stop_automation false rb).body = true ∧
    flagErrB (read_source false rb).body = true ∧
    flagErrB (upload_photo false photoFile notes uuid8 saveStep abspath).body = true ∧
    (∀ r, generate_content false (.ok (.obj kvs)) postApi jl imgRes photoExists
        copyStep abspath ca ma = .response r → flagErrB r.body = true) ∧
    (∀ r, create_post_draft (.ok (.obj kvs)) agiCall wuuid = .response r →
      flagB r.body = true) ∧
    (∀ r db2, create_and_publish_post (.ok (.obj kvs)) imageStep agent uuid8 now db
        = (.response r, db2) → flagErrB r.body = true) ∧
    (∀ r db2, publish_post (.ok (.obj kvs)) wfs agiCall2 now db
        = (.response r, db2) → flagErrB r.body = true) ∧
    (∀ r, get_post_comments (.ok (.obj kvs)) = .response r → flagErrB r.body = true) ∧
    (∀ r db2, reply_to_comments (.ok (.obj kvs)) db = (.response r, db2) →
      flagErrB r.body = true) ∧
    (∀ r db2, message_likers (.ok (.obj kvs)) db = (.response r, db2) →
      flagErrB r.body = true) ∧
    dictGet (health false).body "success" = none ∧
    dictGet (get_history emptyDB).body "success" = none ∧
    (health true).body = [] ∧
    dictGet (get_history emptyDB).body "posts" = some (.arr []) := by
  refine ⟨?_, ?_, ?_, ?_, ?_, ?_, ?_, ?_, ?_, ?_, rfl, rfl, rfl, rfl⟩
  · unfold stop_automation
    rw [if_neg (by simp)]
    repeat' first | split | dsimp only
    all_goals rfl
  · unfold read_source
    rw [if_neg (by simp)]
    repeat' first | split | dsimp only
    all_goals first | rfl | exact flagErrB_read_google_docs _ _
  · unfold upload_photo
    rw [if_neg (by simp)]
    repeat' first | split | dsimp only
    all_goals rfl
  · unfold generate_content
    rw [if_neg (by simp)]
    dsimp only
    repeat' split
    all_goals intro r hr
    all_goals
      first
        | exact HOutcome.noConfusion hr
        | (cases hr
           first
             | rfl
             | exact glp_flagErrB _ _
             | exact flagErrB_dictSet_img _ _ _ (glp_flagErrB _ _))
  · unfold create_post_draft
    dsimp only
    repeat' split
    all_goals intro r hr
    all_goals
      first
        | exact HOutcome.noConfusion hr
        | (cases hr
           first
             | rfl
             | (rename_i agentExec
                rcases agentExec with e2 | u2 <;> rfl))
  · unfold create_and_publish_post
    dsimp only
    repeat' split
    all_goals intro r db2 hr
    all_goals injection hr with h1 h2
    all_goals
      first
        | exact HOutcome.noConfusion h1
        | (cases h1
           first
             | rfl
             | (rcases agent <;> rfl))
  · unfold publish_post
    dsimp only
    repeat' split
    all_goals intro r db2 hr
    all_goals injection hr with h1 h2
    all_goals
      first
        | exact HOutcome.noConfusion h1
        | (cases h1; rfl)
  · unfold get_post_comments
    dsimp only
    repeat' split
    all_goals intro r hr
    all_goals
      first
        | exact HOutcome.noConfusion hr
        | (cases hr; rfl)
  · unfold reply_to_comments
    dsimp only
    repeat' split
    all_goals intro r db2 hr
    all_goals injection hr with h1 h2
    all_goals
      first
        | exact HOutcome.noConfusion h1
        | (cases h1; rfl)
  · unfold message_likers
    dsimp only
    repeat' split
    all_goals intro r db2 hr
    all_goals injection hr with h1 h2
    all_goals
      first
        | exact HOutcome.noConfusion h1
        | (cases h1; rfl)

/-- Witness for C6: the stop endpoint's concrete response carries the flag
(and an error string is not needed since the flag is true). -/
theorem claim6_amended_witness :
    flagErrB (stop_automation false (.ok (.obj []))).body = true :=
  (claim6_amended_response_shape (.ok (.obj [])) [] none "" "" "" (.ok "") (.ok "")
    (.ok "") json_loads0 none false (.ok ()) (.ok ()) id (.ok (.ok ())) (.ok (.ok ()))
    (.ok ()) .success [] 0 emptyDB).1
